import Mathlib

/-!
Verification of the nats-account-operator reconciliation engine.

The Go controllers under src/ are shallowly embedded as pure Lean functions.
Store reads (Kubernetes Get/List), external library calls (nats-io jwt and
nkeys) and remote-authority interactions are supplied as explicit environment
values, and every side effect (secret writes, remote pushes/deletes, status
mutation, emitted events) is returned as part of the result so theorems can
speak about exactly which effects a reconciliation pass performs.
-/

namespace NatsAccOp

/-- Status of a single named condition: Unknown, True or False. -/
inductive CStatus where
  | unknown
  | ctrue
  | cfalse
deriving DecidableEq, Repr

/-- A named condition value: status plus reason and message strings. -/
structure Cond where
  status : CStatus
  reason : String
  message : String
deriving DecidableEq, Repr

/-- Condition.IsTrue on a single condition value. -/
def Cond.isTrueB (c : Cond) : Bool := c.status = CStatus.ctrue

/-- GetCondition(...).IsTrue() on a possibly-unset condition: an absent condition is not True. -/
def condIsTrue (c : Option Cond) : Bool :=
  match c with
  | none => false
  | some c => c.isTrueB

/-- The Unknown condition value used when a condition set is first seeded. -/
def condUnknown : Cond := ⟨CStatus.unknown, "", ""⟩

/-- Modelled from the spec: marking a condition True records no reason or message (section 4.1; the condition machinery lives in the pkg/apis package, which is not under src). -/
def markTrue : Option Cond := some ⟨CStatus.ctrue, "", ""⟩

/-- Modelled from the spec: markFalse(reason, message) for a condition (section 4.1). -/
def markFalse (reason msg : String) : Option Cond := some ⟨CStatus.cfalse, reason, msg⟩

/-- Modelled from the spec: markUnknown(reason, message) for a condition (section 4.1). -/
def markUnknownC (reason msg : String) : Option Cond := some ⟨CStatus.unknown, reason, msg⟩

/-- Modelled from the spec: InitializeConditions seeds an absent condition to Unknown and leaves a set condition alone (section 4.1). -/
def initCond (c : Option Cond) : Option Cond :=
  match c with
  | none => some condUnknown
  | some c => some c

/-- The KeyPair record held in a status sub-resource: public key plus seed secret name. -/
structure KeyPairRec where
  publicKey : String
  seedSecretName : String
deriving DecidableEq, Repr

/-- An object reference by namespace and name (InferredObjectReference). -/
structure ObjRef where
  ns : String
  name : String
deriving DecidableEq, Repr

/-- A typed object reference carrying the referenced kind (TypedObjectReference). -/
structure TypedRef where
  kind : String
  ns : String
  name : String
deriving DecidableEq, Repr

/-- A signing-key membership entry: the child name and its public key. -/
structure SKEntry where
  name : String
  publicKey : String
deriving DecidableEq, Repr

/-- Secret data, mirroring the Go map from string keys to byte values. -/
abbrev SecretData := List (String × String)

/-- Look up a data key in a secret, mirroring the Go map access with ok flag. -/
def getKey (d : SecretData) (k : String) : Option String :=
  (d.find? (fun p => p.1 = k)).map (fun p => p.2)

/-- Set a data key in a secret, replacing an existing entry in place. -/
def setKey (d : SecretData) (k v : String) : SecretData :=
  if (d.find? (fun p => p.1 = k)).isSome then
    d.map (fun p => if p.1 = k then (k, v) else p)
  else d ++ [(k, v)]

/-- A core v1 Secret as far as the controllers observe it. -/
structure Secret where
  name : String
  ns : String
  immutable : Bool
  data : SecretData
deriving DecidableEq, Repr

def natsSecretSeedKey : String := "seed"

def natsSecretJWTKey : String := "jwt"

def natsSecretPublicKeyKey : String := "public-key"

def natsSecretCredsKey : String := "creds"

/-- An nkeys keypair: the private seed and its derived public key. -/
structure NKey where
  seed : String
  publicKey : String
deriving DecidableEq, Repr

/-- The key-space of a decoded seed (nkeys.PrefixByte). -/
inductive PrefByte where
  | operator
  | account
  | user
  | other
deriving DecidableEq, Repr

/-- Modelled from the spec: the canonical claim content of a token, everything except the issuance timestamp (section 4.5; the nsc package is not under src). -/
structure ClaimsCore where
  subject : String
  issuer : String
  signingKeys : List String
  rest : String
deriving DecidableEq, Repr

/-- A decoded token: canonical content plus the volatile issuance timestamp. -/
structure Claims where
  core : ClaimsCore
  iat : Nat
deriving DecidableEq, Repr

/-- Modelled from the spec: nsc.Equality.DeepEqual compares claim sets after excluding the issuance-timestamp field (sections 4.5 and 8.2; the nsc package is not under src). -/
def nscDeepEqual (a b : Claims) : Bool := a.core = b.core

/-- Outcome of a store Get: found, not found, or a transient error. -/
inductive FetchRes (α : Type) where
  | ok (a : α)
  | notFound
  | fail (msg : String)
deriving DecidableEq, Repr

/-- Whether a fetch outcome is a transient (non-not-found) error. -/
def FetchRes.isFail {α : Type} : FetchRes α → Bool
  | .fail _ => true
  | _ => false

/-- An error carrying a condition to record: Failed (non-retryable) or Unknown, mirroring ConditionFailed and ConditionUnknown. -/
inductive CondErr where
  | failed (reason msg : String)
  | unk (reason msg : String)
deriving DecidableEq, Repr

/-- An error returned by a reconcile step: a condition error (recognised by asConditionError) or a plain error. -/
inductive RErr where
  | cond (ce : CondErr)
  | plain (msg : String)
deriving DecidableEq, Repr

/-- MarkCondition on a condition error: a Failed error applies the failed marker and an Unknown error the unknown marker. -/
def applyCondErr {σ : Type} (ce : CondErr) (markF markU : String → String → σ → σ) (st : σ) : σ :=
  match ce with
  | .failed r m => markF r m st
  | .unk r m => markU r m st

/-- The TLS configuration of an Operator specification: absent, a CA file selector (secret name plus key), or present but missing the CA file. -/
inductive TLSCfg where
  | noTLS
  | caFile (secretName key : String)
  | invalid
deriving DecidableEq, Repr

/-- A fetched referenced object (Operator, Account, User or SigningKey) as the reconcilers view it: kind, identity, the key-pair capability and the status fields consulted. -/
structure KObj where
  kind : String
  ns : String
  name : String
  keyPairCapable : Bool
  keyPair : Option KeyPairRec
  seedSecretReadyCond : Bool
  ownerResolvedCond : Bool
  ownerRef : TypedRef
  sysResolvedCond : Bool
  resolvedSysAccount : ObjRef
  accountServerURL : String
  tls : TLSCfg
deriving DecidableEq, Repr

/-- Environment for issuer and owner resolution: the kind-to-constructor registry and the object store. -/
structure ResolveEnv where
  schemeKnows : String → Bool
  isClientObj : String → Bool
  fetch : String → String → FetchRes KObj

/-- Result of resolveIssuer: the resolved key-pair-bearing object, the handled flag and an optional error. -/
structure ResolveOut where
  kp : Option KObj
  handled : Bool
  err : Option RErr
deriving DecidableEq, Repr

/-- The lookup namespace for an issuer reference: the reference namespace when set, else the fallback. -/
def lookupNs (refNs fallback : String) : String :=
  if refNs = "" then fallback else refNs

/-- Shallow embedding of BaseReconciler.resolveIssuer (src/controllers/base_controller.go lines 70 to 134). -/
def resolveIssuer (env : ResolveEnv) (ref : TypedRef) (fallbackNs : String) : ResolveOut :=
  if !env.schemeKnows ref.kind then
    ⟨none, true, some (.cond (.failed "UnsupportedIssuer" "unsupported GroupVersionKind"))⟩
  else if !env.isClientObj ref.kind then
    ⟨none, true, some (.cond (.failed "UnsupportedIssuer" "runtime.Object cannot be converted to client.Object"))⟩
  else
    match env.fetch (lookupNs ref.ns fallbackNs) ref.name with
    | .notFound => ⟨none, true, some (.cond (.failed "NotFound" "not found"))⟩
    | .fail m => ⟨none, false, some (.cond (.unk "UnknownError" m))⟩
    | .ok o =>
      if !o.keyPairCapable then
        ⟨none, true, some (.cond (.failed "UnsupportedIssuer" "issuer does not implement KeyPairable interface"))⟩
      else if !o.seedSecretReadyCond then
        ⟨none, true, some (.cond (.unk "NotReady" "issuer seed secret is not ready"))⟩
      else ⟨some o, true, none⟩

/-- C5: resolveIssuer returns handled=false together with an error exactly on a transient non-not-found fetch failure; every other failure mode (unknown kind, cast failure, not-found, missing key-pair capability, issuer seed not ready) yields handled=true with a condition-describing error. -/
theorem resolveIssuer_handled_spec (env : ResolveEnv) (ref : TypedRef) (fb : String) :
    (((resolveIssuer env ref fb).handled = false ∧ (resolveIssuer env ref fb).err ≠ none) ↔
      (env.fetch (lookupNs ref.ns fb) ref.name).isFail = true ∧
        env.schemeKnows ref.kind = true ∧ env.isClientObj ref.kind = true) ∧
    ((resolveIssuer env ref fb).handled = false →
      ∃ m, (resolveIssuer env ref fb).err = some (RErr.cond (CondErr.unk "UnknownError" m))) ∧
    ((resolveIssuer env ref fb).handled = true → (resolveIssuer env ref fb).kp = none →
      ∃ ce, (resolveIssuer env ref fb).err = some (RErr.cond ce)) := by
  unfold resolveIssuer
  cases hk : env.schemeKnows ref.kind <;>
    cases hc : env.isClientObj ref.kind <;>
      simp_all
  · cases hf : env.fetch (lookupNs ref.ns fb) ref.name with
    | ok o =>
      cases hcap : o.keyPairCapable <;> cases hrdy : o.seedSecretReadyCond <;>
        simp_all [FetchRes.isFail]
    | notFound => simp_all [FetchRes.isFail]
    | fail m => simp_all [FetchRes.isFail]

/-- Witness for C5 at a concrete environment whose fetch fails transiently: the theorem yields a non-nil Unknown-condition error with handled=false. -/
theorem resolveIssuer_handled_spec_witness :
    ∃ m, (resolveIssuer ⟨fun _ => true, fun _ => true, fun _ _ => FetchRes.fail "network"⟩
      ⟨"Operator", "", "op"⟩ "d").err = some (RErr.cond (CondErr.unk "UnknownError" m)) := by
  exact (resolveIssuer_handled_spec ⟨fun _ => true, fun _ => true, fun _ _ => FetchRes.fail "network"⟩
    ⟨"Operator", "", "op"⟩ "d").2.1 (by decide)

/-- The status sub-resource of an Account: its named conditions, recorded key pair, resolved operator reference and signing-key membership. -/
structure AccountStatus where
  seedSecretCond : Option Cond
  issuerResolvedCond : Option Cond
  operatorResolvedCond : Option Cond
  signingKeysCond : Option Cond
  jwtSecretCond : Option Cond
  jwtPushedCond : Option Cond
  keyPair : Option KeyPairRec
  operatorRef : Option ObjRef
  signingKeys : List SKEntry
deriving DecidableEq, Repr

/-- Modelled from the spec: Status.InitializeConditions seeds every known condition type to Unknown when absent (section 4.1; the condition machinery is not under src). -/
def initAccountConds (st : AccountStatus) : AccountStatus :=
  { st with
    seedSecretCond := initCond st.seedSecretCond
    issuerResolvedCond := initCond st.issuerResolvedCond
    operatorResolvedCond := initCond st.operatorResolvedCond
    signingKeysCond := initCond st.signingKeysCond
    jwtSecretCond := initCond st.jwtSecretCond
    jwtPushedCond := initCond st.jwtPushedCond }

def markSeedSecretReadyA (pk name : String) (st : AccountStatus) : AccountStatus :=
  { st with seedSecretCond := markTrue, keyPair := some ⟨pk, name⟩ }

def markSeedSecretFailedA (reason msg : String) (st : AccountStatus) : AccountStatus :=
  { st with seedSecretCond := markFalse reason msg }

def markSeedSecretUnknownA (reason msg : String) (st : AccountStatus) : AccountStatus :=
  { st with seedSecretCond := markUnknownC reason msg }

def markIssuerResolvedA (st : AccountStatus) : AccountStatus :=
  { st with issuerResolvedCond := markTrue }

def markIssuerResolveFailedA (reason msg : String) (st : AccountStatus) : AccountStatus :=
  { st with issuerResolvedCond := markFalse reason msg }

def markIssuerResolveUnknownA (reason msg : String) (st : AccountStatus) : AccountStatus :=
  { st with issuerResolvedCond := markUnknownC reason msg }

def markOperatorResolvedA (ref : ObjRef) (st : AccountStatus) : AccountStatus :=
  { st with operatorResolvedCond := markTrue, operatorRef := some ref }

def markOperatorResolveFailedA (reason msg : String) (st : AccountStatus) : AccountStatus :=
  { st with operatorResolvedCond := markFalse reason msg }

def markOperatorResolveUnknownA (reason msg : String) (st : AccountStatus) : AccountStatus :=
  { st with operatorResolvedCond := markUnknownC reason msg }

def markSigningKeysUpdatedA (sks : List SKEntry) (st : AccountStatus) : AccountStatus :=
  { st with signingKeysCond := markTrue, signingKeys := sks }

def markJWTSecretReadyA (st : AccountStatus) : AccountStatus :=
  { st with jwtSecretCond := markTrue }

def markJWTSecretFailedA (reason msg : String) (st : AccountStatus) : AccountStatus :=
  { st with jwtSecretCond := markFalse reason msg }

def markJWTSecretUnknownA (reason msg : String) (st : AccountStatus) : AccountStatus :=
  { st with jwtSecretCond := markUnknownC reason msg }

def markJWTPushedA (st : AccountStatus) : AccountStatus :=
  { st with jwtPushedCond := markTrue }

def markJWTPushFailedA (reason msg : String) (st : AccountStatus) : AccountStatus :=
  { st with jwtPushedCond := markFalse reason msg }

/-- The Account specification fields the reconciler reads. -/
structure AccountSpec where
  seedSecretName : String
  jwtSecretName : String
  issuer : TypedRef
  hasSigningKeysSelector : Bool
deriving DecidableEq, Repr

/-- An Account object: identity, specification, status, deletion marker and finalizer presence. -/
structure AccountObj where
  ns : String
  name : String
  uid : String
  spec : AccountSpec
  status : AccountStatus
  deletionSet : Bool
  hasFinalizer : Bool
deriving DecidableEq, Repr

/-- A Signing Key resource as observed in a listing: name, readiness condition, resolved owner reference and its public key. -/
structure SigningKeyObj where
  name : String
  readyCond : Bool
  ownerRef : Option ObjRef
  publicKey : String
deriving DecidableEq, Repr

/-- Modelled from the spec: the desired signing-key membership, namely the listed Signing Keys whose resolved owner reference equals the owner (namespace and name) and whose readiness condition is True, projected into name and public key (section 4.4; helpers.NextSigningKeys is not under src). -/
def desiredSigningKeys (owner : ObjRef) (listing : List SigningKeyObj) : List SKEntry :=
  (listing.filter (fun sk => sk.ownerRef = some owner && sk.readyCond)).map
    (fun sk => ⟨sk.name, sk.publicKey⟩)

/-- Modelled from the spec: helpers.NextSigningKeys produces a minimal, order-stable membership list, keeping the recorded order for members still desired and appending newly desired members in listing order (sections 2 and 4.4; helpers.NextSigningKeys is not under src). The owner UID argument of the Go call identifies the owner, represented here by the owner reference used to compute the desired membership. -/
def nextSigningKeys (current desired : List SKEntry) : List SKEntry :=
  current.filter (fun e => decide (e ∈ desired)) ++ desired.filter (fun e => decide (e ∉ current))

theorem mem_nextSigningKeys (c d : List SKEntry) (x : SKEntry) :
    x ∈ nextSigningKeys c d ↔ x ∈ d := by
  simp only [nextSigningKeys, List.mem_append, List.mem_filter, decide_eq_true_iff]
  tauto

theorem nextSigningKeys_eq_self_iff (c d : List SKEntry) :
    nextSigningKeys c d = c ↔ ∀ x, x ∈ c ↔ x ∈ d := by
  constructor
  · intro h
    have hsub : ∀ x ∈ d, x ∈ c := by
      intro x hx
      by_cases hc : x ∈ c
      · exact hc
      · have hmem : x ∈ nextSigningKeys c d := (mem_nextSigningKeys c d x).mpr hx
        rw [h] at hmem
        exact absurd hmem hc
    intro x
    refine ⟨fun hxc => ?_, fun hxd => hsub x hxd⟩
    have h2 : d.filter (fun e => decide (e ∉ c)) = [] := by
      simp only [List.filter_eq_nil_iff, decide_eq_true_iff, not_not]
      intro a ha
      exact hsub a ha
    rw [nextSigningKeys, h2, List.append_nil] at h
    have h3 := List.filter_eq_self.mp h x hxc
    simpa using h3
  · intro hiff
    have h2 : d.filter (fun e => decide (e ∉ c)) = [] := by
      simp only [List.filter_eq_nil_iff, decide_eq_true_iff, not_not]
      intro a ha
      exact (hiff a).mpr ha
    have h1 : c.filter (fun e => decide (e ∈ d)) = c := by
      rw [List.filter_eq_self]
      intro a ha
      simpa using (hiff a).mp ha
    unfold nextSigningKeys
    rw [h2, List.append_nil]
    exact h1

/-- Environment for ensureSigningKeysUpdated: whether the label selector parses and the api-server listing outcome. -/
structure SKListEnv where
  selectorOk : Bool
  listing : Except String (List SigningKeyObj)

/-- Result of ensureSigningKeysUpdated: optional error, updated status and whether the SigningKeysChanged event fired. -/
structure SKOut where
  err : Option RErr
  st : AccountStatus
  eventFired : Bool
deriving DecidableEq, Repr

/-- Shallow embedding of AccountReconciler.ensureSigningKeysUpdated (src/unnamed/part_000 lines 405 to 442). -/
def ensureSigningKeysUpdated (env : SKListEnv) (acc : AccountObj) : SKOut :=
  if acc.spec.hasSigningKeysSelector && !env.selectorOk then
    ⟨some (.plain "invalid signing keys selector"), acc.status, false⟩
  else
    match env.listing with
    | .error m => ⟨some (.plain ("failed to list SigningKeys: " ++ m)), acc.status, false⟩
    | .ok l =>
      let nextSKs := nextSigningKeys acc.status.signingKeys (desiredSigningKeys ⟨acc.ns, acc.name⟩ l)
      ⟨none, markSigningKeysUpdatedA nextSKs acc.status, decide (acc.status.signingKeys ≠ nextSKs)⟩

/-- C3: on a successful listing, the resolved membership consists exactly of the listed Signing Keys owned by the Account (namespace and name) and ready, projected to name and public key; the change event fires iff the desired membership differs as a set from the recorded one; and the membership condition is written to status even when unchanged. -/
theorem ensureSigningKeysUpdated_spec (env : SKListEnv) (acc : AccountObj)
    (l : List SigningKeyObj) (hl : env.listing = .ok l)
    (hsel : (acc.spec.hasSigningKeysSelector && !env.selectorOk) = false) :
    (∀ e, e ∈ (ensureSigningKeysUpdated env acc).st.signingKeys ↔
      e ∈ desiredSigningKeys ⟨acc.ns, acc.name⟩ l) ∧
    ((ensureSigningKeysUpdated env acc).eventFired = true ↔
      ¬ (∀ e, e ∈ acc.status.signingKeys ↔ e ∈ desiredSigningKeys ⟨acc.ns, acc.name⟩ l)) ∧
    (ensureSigningKeysUpdated env acc).st.signingKeysCond = markTrue ∧
    (ensureSigningKeysUpdated env acc).err = none := by
  have hgoal : ensureSigningKeysUpdated env acc =
      ⟨none, markSigningKeysUpdatedA (nextSigningKeys acc.status.signingKeys
        (desiredSigningKeys ⟨acc.ns, acc.name⟩ l)) acc.status,
        decide (acc.status.signingKeys ≠ nextSigningKeys acc.status.signingKeys
          (desiredSigningKeys ⟨acc.ns, acc.name⟩ l))⟩ := by
    unfold ensureSigningKeysUpdated
    rw [hsel, hl]
    rfl
  rw [hgoal]
  refine ⟨fun e => mem_nextSigningKeys _ _ e, ?_, rfl, rfl⟩
  show decide _ = true ↔ _
  rw [decide_eq_true_iff]
  constructor
  · intro hne hall
    exact hne ((nextSigningKeys_eq_self_iff _ _).mpr hall).symm
  · intro hnall heq
    exact hnall ((nextSigningKeys_eq_self_iff _ _).mp heq.symm)

def skAccW : AccountObj :=
  { ns := "ns", name := "acc", uid := "u1"
    spec := { seedSecretName := "s", jwtSecretName := "j", issuer := ⟨"Operator", "", "op"⟩,
              hasSigningKeysSelector := false }
    status := { seedSecretCond := none, issuerResolvedCond := none, operatorResolvedCond := none
                signingKeysCond := none, jwtSecretCond := none, jwtPushedCond := none
                keyPair := none, operatorRef := none
                signingKeys := [⟨"A", "pkA"⟩, ⟨"B", "pkB"⟩] }
    deletionSet := false, hasFinalizer := true }

def skListW : List SigningKeyObj :=
  [⟨"A", true, some ⟨"ns", "acc"⟩, "pkA"⟩, ⟨"C", false, some ⟨"ns", "acc"⟩, "pkC"⟩]

def skEnvW : SKListEnv := ⟨true, .ok skListW⟩

/-- Witness for C3 at the scenario from the spec: recorded membership A and B, listing a ready A and a not-ready C; the change event fires because the membership shrank. -/
theorem ensureSigningKeysUpdated_spec_witness :
    (ensureSigningKeysUpdated skEnvW skAccW).eventFired = true := by
  have h := ensureSigningKeysUpdated_spec skEnvW skAccW skListW (by rfl) (by decide)
  refine h.2.1.mpr ?_
  intro hall
  have hB := (hall ⟨"B", "pkB"⟩).mp (by decide)
  revert hB
  decide

/-- The status sub-resource of a User: named conditions, recorded key pair and resolved account reference. -/
structure UserStatus where
  seedSecretCond : Option Cond
  issuerResolvedCond : Option Cond
  accountResolvedCond : Option Cond
  jwtSecretCond : Option Cond
  credsSecretCond : Option Cond
  keyPair : Option KeyPairRec
  accountRef : Option ObjRef
deriving DecidableEq, Repr

/-- Modelled from the spec: Status.InitializeConditions for a User seeds every known condition type to Unknown when absent (section 4.1). -/
def initUserConds (st : UserStatus) : UserStatus :=
  { st with
    seedSecretCond := initCond st.seedSecretCond
    issuerResolvedCond := initCond st.issuerResolvedCond
    accountResolvedCond := initCond st.accountResolvedCond
    jwtSecretCond := initCond st.jwtSecretCond
    credsSecretCond := initCond st.credsSecretCond }

def markSeedSecretReadyU (pk name : String) (st : UserStatus) : UserStatus :=
  { st with seedSecretCond := markTrue, keyPair := some ⟨pk, name⟩ }

def markSeedSecretFailedU (reason msg : String) (st : UserStatus) : UserStatus :=
  { st with seedSecretCond := markFalse reason msg }

def markSeedSecretUnknownU (reason msg : String) (st : UserStatus) : UserStatus :=
  { st with seedSecretCond := markUnknownC reason msg }

def markIssuerResolvedU (st : UserStatus) : UserStatus :=
  { st with issuerResolvedCond := markTrue }

def markIssuerResolveFailedU (reason msg : String) (st : UserStatus) : UserStatus :=
  { st with issuerResolvedCond := markFalse reason msg }

def markIssuerResolveUnknownU (reason msg : String) (st : UserStatus) : UserStatus :=
  { st with issuerResolvedCond := markUnknownC reason msg }

def markAccountResolvedU (ref : ObjRef) (st : UserStatus) : UserStatus :=
  { st with accountResolvedCond := markTrue, accountRef := some ref }

def markAccountResolveFailedU (reason msg : String) (st : UserStatus) : UserStatus :=
  { st with accountResolvedCond := markFalse reason msg }

def markAccountResolveUnknownU (reason msg : String) (st : UserStatus) : UserStatus :=
  { st with accountResolvedCond := markUnknownC reason msg }

def markJWTSecretReadyU (st : UserStatus) : UserStatus :=
  { st with jwtSecretCond := markTrue }

def markJWTSecretFailedU (reason msg : String) (st : UserStatus) : UserStatus :=
  { st with jwtSecretCond := markFalse reason msg }

def markJWTSecretUnknownU (reason msg : String) (st : UserStatus) : UserStatus :=
  { st with jwtSecretCond := markUnknownC reason msg }

def markCredsSecretReadyU (st : UserStatus) : UserStatus :=
  { st with credsSecretCond := markTrue }

def markCredsSecretFailedU (reason msg : String) (st : UserStatus) : UserStatus :=
  { st with credsSecretCond := markFalse reason msg }

def markCredsSecretUnknownU (reason msg : String) (st : UserStatus) : UserStatus :=
  { st with credsSecretCond := markUnknownC reason msg }

/-- The User specification fields the reconciler reads. -/
structure UserSpec where
  seedSecretName : String
  jwtSecretName : String
  credentialsSecretName : String
  issuer : TypedRef
deriving DecidableEq, Repr

/-- A User object: identity, specification and status. -/
structure UserObj where
  ns : String
  name : String
  spec : UserSpec
  status : UserStatus
deriving DecidableEq, Repr

/-- External library functions (nats-io jwt pkg, nkeys, nsc helpers) supplied as an environment. decodeClaims is jwt.Decode; decodeSeed is nkeys.FromSeed; seedPref is the prefix byte from nkeys.DecodeSeed; freshAccountKey and freshUserKey are the results of nkeys.CreateAccount and nkeys.CreateUser; createAccountClaims and createUserClaims build the canonical claims and the freshly signed candidate token; formatUserConfig is jwt.FormatUserConfig. -/
structure Ext where
  decodeClaims : String → Option Claims
  decodeSeed : String → Option NKey
  seedPref : String → Option PrefByte
  freshAccountKey : Option NKey
  freshUserKey : Option NKey
  createAccountClaims : AccountObj → NKey → Option (Claims × String)
  createUserClaims : UserObj → NKey → Option (Claims × String)
  formatUserConfig : String → String → Option String

/-- Modelled from the spec: NewKeyPairSecretBuilderFromSecret(got).Build(owner, kp) recomputes the desired seed-secret representation from the stored secret, setting the seed field (and, for Users, the derived public key) from the keypair (sections 4.2 and 6; the controllers/resources package is not under src). -/
def buildKeyPairSecretFrom (withPub : Bool) (got : Secret) (kp : NKey) : Secret :=
  { got with data :=
      if withPub then
        setKey (setKey got.data natsSecretSeedKey kp.seed) natsSecretPublicKeyKey kp.publicKey
      else setKey got.data natsSecretSeedKey kp.seed }

/-- Modelled from the spec: NewKeyPairSecretBuilder(scheme).Build(owner, kp) builds a fresh seed secret named by the specification, holding the seed (and, for Users, the public key); seed secrets are immutable once created (sections 4.2 and 6). -/
def buildNewKeyPairSecret (withPub : Bool) (name ns : String) (kp : NKey) : Secret :=
  { name := name, ns := ns, immutable := true
    data :=
      if withPub then [(natsSecretSeedKey, kp.seed), (natsSecretPublicKeyKey, kp.publicKey)]
      else [(natsSecretSeedKey, kp.seed)] }

/-- Modelled from the spec: NewJWTSecretBuilderFromSecret(got).Build(owner, token) recomputes the desired JWT-secret representation, setting the jwt field to the token (section 6; the controllers/resources package is not under src). -/
def buildJWTSecretFrom (got : Secret) (token : String) : Secret :=
  { got with data := setKey got.data natsSecretJWTKey token }

/-- Modelled from the spec: NewJWTSecretBuilder(scheme).Build(owner, token) builds a fresh JWT secret named by the specification (section 6). -/
def buildNewJWTSecret (name ns : String) (immut : Bool) (token : String) : Secret :=
  { name := name, ns := ns, immutable := immut, data := [(natsSecretJWTKey, token)] }

/-- Modelled from the spec: NewUserCredentialSecretBuilderFromSecret(got).Build(usr, jwt, seed) recomputes the desired credentials-secret representation, setting the creds field to the formatted token-plus-seed bundle (section 6; the controllers/resources package is not under src). -/
def buildCredsSecretFrom (got : Secret) (creds : String) : Secret :=
  { got with data := setKey got.data natsSecretCredsKey creds }

/-- Modelled from the spec: NewUserCredentialSecretBuilder(scheme).Build(usr, jwt, seed) builds a fresh credentials secret named by the specification (section 6). -/
def buildNewCredsSecret (name ns : String) (creds : String) : Secret :=
  { name := name, ns := ns, immutable := false, data := [(natsSecretCredsKey, creds)] }

/-- Whether a stored token is up to date: it decodes and its claims are semantically equal to the canonical claims excluding the issuance timestamp. -/
def jwtUpToDate (ext : Ext) (want : Claims) (gotJWT : String) : Bool :=
  match ext.decodeClaims gotJWT with
  | none => false
  | some c => nscDeepEqual c want

/-- Result of the token-reconcile step over a status type: the resulting token, ok flag, optional error, updated status and the secret updates performed. -/
structure JWTUpdOut (σ : Type) where
  token : String
  ok : Bool
  err : Option RErr
  st : σ
  writes : List Secret

/-- Shallow embedding of AccountReconciler.ensureJWTSecretUpToDate (src/unnamed/part_000 lines 589 to 640). The updateOk flag is the outcome of the Client.Update store call. -/
def ensureJWTSecretUpToDateAcc (ext : Ext) (updateOk : Bool) (st : AccountStatus)
    (wantClaims : Claims) (got : Secret) (nextJWT : String) : JWTUpdOut AccountStatus :=
  match getKey got.data natsSecretJWTKey with
  | none =>
    ⟨"", false, none,
      markJWTSecretFailedA "InvalidJWTSecret"
        "JWT secret does not contain JWT data, delete the secret to generate a new JWT" st, []⟩
  | some gotJWT =>
    if jwtUpToDate ext wantClaims gotJWT then
      ⟨gotJWT, true, none, markJWTSecretReadyA st, []⟩
    else
      let want := buildJWTSecretFrom got nextJWT
      if updateOk then
        ⟨nextJWT, true, none, markJWTSecretReadyA st, [want]⟩
      else
        ⟨"", false, some (.plain "failed to update JWT secret"),
          markSeedSecretUnknownA "UnknownError" "failed to update JWT secret" st, []⟩

/-- Shallow embedding of UserReconciler.ensureJWTSecretUpToDate (src/controllers/user_controller.go lines 359 to 410). The updateOk flag is the outcome of the Client.Update store call. -/
def ensureJWTSecretUpToDateUser (ext : Ext) (updateOk : Bool) (st : UserStatus)
    (wantClaims : Claims) (got : Secret) (nextJWT : String) : JWTUpdOut UserStatus :=
  match getKey got.data natsSecretJWTKey with
  | none =>
    ⟨"", false, none,
      markJWTSecretFailedU "InvalidJWTSecret"
        "JWT secret does not contain JWT data, delete the secret to generate a new JWT" st, []⟩
  | some gotJWT =>
    if jwtUpToDate ext wantClaims gotJWT then
      ⟨gotJWT, true, none, markJWTSecretReadyU st, []⟩
    else
      let want := buildJWTSecretFrom got nextJWT
      if updateOk then
        ⟨nextJWT, true, none, markJWTSecretReadyU st, [want]⟩
      else
        ⟨"", false, some (.plain "failed to update JWT secret"),
          markSeedSecretUnknownU "UnknownError" "failed to update JWT secret" st, []⟩

/-- C1: with a persisted JWT secret holding token t, both token-reconcile steps keep the stored token verbatim with no secret write exactly when t decodes to claims semantically equal to the canonical claims excluding the issuance timestamp, and otherwise replace the stored token with the fresh candidate by one secret update. -/
theorem ensureJWTSecretUpToDate_spec (ext : Ext) (stA : AccountStatus) (stU : UserStatus)
    (want : Claims) (got : Secret) (nextJWT t : String)
    (ht : getKey got.data natsSecretJWTKey = some t) :
    (jwtUpToDate ext want t = true →
      (ensureJWTSecretUpToDateAcc ext true stA want got nextJWT).token = t ∧
      (ensureJWTSecretUpToDateAcc ext true stA want got nextJWT).writes = [] ∧
      (ensureJWTSecretUpToDateUser ext true stU want got nextJWT).token = t ∧
      (ensureJWTSecretUpToDateUser ext true stU want got nextJWT).writes = []) ∧
    (jwtUpToDate ext want t = false →
      (ensureJWTSecretUpToDateAcc ext true stA want got nextJWT).token = nextJWT ∧
      (ensureJWTSecretUpToDateAcc ext true stA want got nextJWT).writes =
        [buildJWTSecretFrom got nextJWT] ∧
      (ensureJWTSecretUpToDateUser ext true stU want got nextJWT).token = nextJWT ∧
      (ensureJWTSecretUpToDateUser ext true stU want got nextJWT).writes =
        [buildJWTSecretFrom got nextJWT]) ∧
    (jwtUpToDate ext want t = true ↔
      ∃ c, ext.decodeClaims t = some c ∧ nscDeepEqual c want = true) := by
  unfold ensureJWTSecretUpToDateAcc ensureJWTSecretUpToDateUser
  rw [ht]
  refine ⟨fun hup => ?_, fun hup => ?_, ?_⟩
  · simp [hup]
  · simp [hup]
  · unfold jwtUpToDate
    cases hdec : ext.decodeClaims t with
    | none => simp
    | some c => simp [hdec]

def extW1 : Ext :=
  { decodeClaims := fun s => if s = "tokOld" then some ⟨⟨"S", "I", [], "r"⟩, 5⟩ else none
    decodeSeed := fun _ => none
    seedPref := fun _ => none
    freshAccountKey := none
    freshUserKey := none
    createAccountClaims := fun _ _ => none
    createUserClaims := fun _ _ => none
    formatUserConfig := fun _ _ => none }

def stAW1 : AccountStatus := ⟨none, none, none, none, none, none, none, none, []⟩

def stUW1 : UserStatus := ⟨none, none, none, none, none, none, none⟩

def gotW1 : Secret := ⟨"jwt-sec", "ns", false, [(natsSecretJWTKey, "tokOld")]⟩

/-- Witness for C1 at a concrete secret holding a token whose decoded claims match the canonical claims except for the issuance timestamp: the stored token is kept verbatim with no write. -/
theorem ensureJWTSecretUpToDate_spec_witness :
    (ensureJWTSecretUpToDateAcc extW1 true stAW1 ⟨⟨"S", "I", [], "r"⟩, 9⟩ gotW1 "tokNew").token =
      "tokOld" ∧
    (ensureJWTSecretUpToDateAcc extW1 true stAW1 ⟨⟨"S", "I", [], "r"⟩, 9⟩ gotW1 "tokNew").writes =
      [] := by
  have h := ensureJWTSecretUpToDate_spec extW1 stAW1 stUW1 ⟨⟨"S", "I", [], "r"⟩, 9⟩ gotW1
    "tokNew" "tokOld" (by decide)
  have h2 := h.1 (by decide)
  exact ⟨h2.1, h2.2.1⟩

/-- Result of the Account seed-secret update step: ok flag, optional error, updated status and secret updates performed. -/
structure SeedUpdOutA where
  ok : Bool
  err : Option RErr
  st : AccountStatus
  writes : List Secret
deriving DecidableEq, Repr

/-- Shallow embedding of AccountReconciler.ensureSeedSecretUpToDate (src/unnamed/part_000 lines 355 to 403). The updateOk flag is the outcome of the Client.Update store call. -/
def ensureSeedSecretUpToDateAcc (ext : Ext) (updateOk : Bool) (st : AccountStatus)
    (got : Secret) : SeedUpdOutA :=
  match getKey got.data natsSecretSeedKey with
  | none =>
    ⟨false, none,
      markSeedSecretFailedA "InvalidSeedSecret"
        "seed secret does not contain seed data, delete the secret for a new keypair" st, []⟩
  | some seed =>
    match ext.decodeSeed seed with
    | none =>
      ⟨false, none, markSeedSecretFailedA "InvalidSeedSecret" "failed to parse seed" st, []⟩
    | some kp =>
      let want := buildKeyPairSecretFrom false got kp
      if got = want then
        ⟨true, none, markSeedSecretReadyA kp.publicKey want.name st, []⟩
      else if updateOk then
        ⟨true, none, markSeedSecretReadyA kp.publicKey want.name st, [want]⟩
      else
        ⟨false, some (.plain "failed to update seed secret"),
          markSeedSecretUnknownA "UnknownError" "failed to update seed secret" st, []⟩

/-- Result of the Account seed-secret create step. The keygens counter records invocations of nkeys.CreateAccount. -/
structure CreateOutA where
  err : Option RErr
  st : AccountStatus
  creates : List Secret
  keygens : Nat
deriving DecidableEq, Repr

/-- Shallow embedding of AccountReconciler.createSeedSecret (src/unnamed/part_000 lines 302 to 353). -/
def createSeedSecretAcc (ext : Ext) (createOk : Bool) (st : AccountStatus)
    (acc : AccountObj) : CreateOutA :=
  match ext.freshAccountKey with
  | none =>
    ⟨some (.plain "failed to create account keypair"),
      markSeedSecretFailedA "UnknownError" "failed to create account keypair" st, [], 1⟩
  | some kp =>
    let secret := buildNewKeyPairSecret false acc.spec.seedSecretName acc.ns kp
    if createOk then
      ⟨none, markSeedSecretReadyA kp.publicKey secret.name st, [secret], 1⟩
    else
      ⟨some (.plain "failed to create account keypair secret"),
        markSeedSecretFailedA "UnknownError" "failed to create account keypair secret" st, [], 1⟩

/-- Result of the Account seed-secret reconcile step. -/
structure SeedRecOutA where
  ok : Bool
  err : Option RErr
  st : AccountStatus
  writes : List Secret
  keygens : Nat
deriving DecidableEq, Repr

/-- Shallow embedding of AccountReconciler.reconcileSeedSecret (src/unnamed/part_000 lines 281 to 300). -/
def reconcileSeedSecretAcc (ext : Ext) (seedFetch : FetchRes Secret) (createOk updateOk : Bool)
    (st : AccountStatus) (acc : AccountObj) : SeedRecOutA :=
  match seedFetch with
  | .notFound =>
    let r := createSeedSecretAcc ext createOk st acc
    ⟨true, r.err, r.st, r.creates, r.keygens⟩
  | .fail m =>
    ⟨false, some (.plain m), markSeedSecretUnknownA "UnknownError" m st, [], 0⟩
  | .ok got =>
    let r := ensureSeedSecretUpToDateAcc ext updateOk st got
    ⟨r.ok, r.err, r.st, r.writes, 0⟩

/-- Result of the shared base seed-secret update step: the decoded keypair, ok flag, optional condition error and secret updates. -/
structure SeedUpdOutB where
  kp : Option NKey
  ok : Bool
  err : Option RErr
  writes : List Secret
deriving DecidableEq, Repr

/-- Shallow embedding of BaseReconciler.ensureSeedSecretUpToDate (src/controllers/base_controller.go lines 27 to 61). withPub selects the User-shaped builder that also records the derived public key. -/
def ensureSeedSecretUpToDateBase (ext : Ext) (withPub updateOk : Bool) (got : Secret) :
    SeedUpdOutB :=
  match getKey got.data natsSecretSeedKey with
  | none =>
    ⟨none, true, some (.cond (.failed "InvalidSeedSecret"
      "seed secret does not contain seed data, delete the secret for a new keypair")), []⟩
  | some seed =>
    match ext.decodeSeed seed with
    | none =>
      ⟨none, true, some (.cond (.failed "InvalidSeedSecret" "failed to parse seed")), []⟩
    | some kp =>
      let want := buildKeyPairSecretFrom withPub got kp
      if got = want then ⟨some kp, true, none, []⟩
      else if updateOk then ⟨some kp, true, none, [want]⟩
      else ⟨some kp, false, some (.cond (.failed "UnknownError" "failed to update seed secret")), []⟩

/-- Result of the User seed-secret reconcile step: the raw seed handed to later stages, ok flag, optional error, updated status, writes and keypair generations. -/
structure UserSeedOut where
  seed : Option String
  ok : Bool
  err : Option RErr
  st : UserStatus
  writes : List Secret
  keygens : Nat
deriving DecidableEq, Repr

/-- Shallow embedding of UserReconciler.createSeedSecret (src/controllers/user_controller.go lines 186 to 231). -/
def createSeedSecretUser (ext : Ext) (createOk : Bool) (st : UserStatus)
    (usr : UserObj) : UserSeedOut :=
  match ext.freshUserKey with
  | none =>
    ⟨none, false, some (.plain "failed to create user keypair"),
      markSeedSecretFailedU "UnknownError" "failed to create user keypair" st, [], 1⟩
  | some kp =>
    let secret := buildNewKeyPairSecret true usr.spec.seedSecretName usr.ns kp
    if createOk then
      ⟨some kp.seed, true, none, markSeedSecretReadyU kp.publicKey secret.name st, [secret], 1⟩
    else
      ⟨none, false, some (.plain "failed to create user keypair secret"),
        markSeedSecretFailedU "UnknownError" "failed to create user keypair secret" st, [], 1⟩

/-- The status marking applied when the base seed-secret update step reports an error: a condition error applies its own marker, a plain error marks Unknown. -/
def applySeedErrU (e : Option RErr) (st : UserStatus) : UserStatus :=
  match e with
  | some (.cond ce) => applyCondErr ce markSeedSecretFailedU markSeedSecretUnknownU st
  | some (.plain m) => markSeedSecretUnknownU "UnknownError" m st
  | none => markSeedSecretUnknownU "UnknownError" "" st

/-- Shallow embedding of UserReconciler.reconcileSeedSecret (src/controllers/user_controller.go lines 146 to 184). -/
def reconcileSeedSecretUser (ext : Ext) (seedFetch : FetchRes Secret) (createOk updateOk : Bool)
    (st : UserStatus) (usr : UserObj) : UserSeedOut :=
  match seedFetch with
  | .notFound => createSeedSecretUser ext createOk st usr
  | .fail m =>
    ⟨none, false, some (.plain m), markSeedSecretUnknownU "UnknownError" m st, [], 0⟩
  | .ok got =>
    let r := ensureSeedSecretUpToDateBase ext true updateOk got
    if r.err ≠ none ∨ r.ok = false then
      ⟨none, r.ok, r.err, applySeedErrU r.err st, r.writes, 0⟩
    else
      match r.kp with
      | some kp =>
        ⟨some kp.seed, true, none,
          markSeedSecretReadyU kp.publicKey usr.spec.seedSecretName st, r.writes, 0⟩
      | none => ⟨none, true, none, st, r.writes, 0⟩

/-- Result of the Account controller issuer-seed load (part_000 variant), which marks conditions directly on the Account status. -/
structure LoadSeedOutA where
  kp : Option NKey
  ok : Bool
  err : Option RErr
  st : AccountStatus
deriving DecidableEq, Repr

/-- Shallow embedding of AccountReconciler.loadIssuerSeed (src/unnamed/part_000 lines 475 to 554). -/
def loadIssuerSeedAcc (ext : Ext) (seedFetch : FetchRes Secret) (st : AccountStatus)
    (issuer : KObj) : LoadSeedOutA :=
  match issuer.keyPair with
  | none => ⟨none, false, none, markIssuerResolveFailedA "UnknownError" "issuer KeyPair is nil" st⟩
  | some rec =>
    match seedFetch with
    | .notFound =>
      ⟨none, false, none, markIssuerResolveUnknownA "IssuerSeedError" "failed to get issuer seed" st⟩
    | .fail m =>
      ⟨none, false, some (.plain m),
        markIssuerResolveUnknownA "IssuerSeedError" "failed to get issuer seed" st⟩
    | .ok sec =>
      match getKey sec.data natsSecretSeedKey with
      | none =>
        ⟨none, false, none,
          markIssuerResolveFailedA "MalformedSeedSecret" "secret missing required field" st⟩
      | some seed =>
        match ext.seedPref seed with
        | none =>
          ⟨none, false, none,
            markIssuerResolveFailedA "MalformedSeedSecret" "failed to parse seed" st⟩
        | some pref =>
          if pref ≠ PrefByte.operator then
            ⟨none, false, none,
              markIssuerResolveFailedA "MalformedSeedSecret" "unexpected seed prefix" st⟩
          else
            match ext.decodeSeed seed with
            | none =>
              ⟨none, false, none,
                markIssuerResolveFailedA "UnknownError" "failed to get public key from seed" st⟩
            | some kp =>
              if kp.publicKey ≠ rec.publicKey then
                ⟨none, false, none,
                  markIssuerResolveFailedA "PublicKeyMismatch" "public key mismatch" st⟩
              else
                ⟨some kp, true, none, markIssuerResolvedA st⟩

/-- Result of the shared base issuer-seed load (base_controller.go variant), which reports condition errors to its caller. -/
structure LoadSeedOutB where
  kp : Option NKey
  ok : Bool
  err : Option RErr
deriving DecidableEq, Repr

/-- Shallow embedding of BaseReconciler.loadIssuerSeed (src/controllers/base_controller.go lines 181 to 241). -/
def loadIssuerSeedBase (ext : Ext) (seedFetch : FetchRes Secret) (issuer : KObj)
    (wantPref : PrefByte) : LoadSeedOutB :=
  match issuer.keyPair with
  | none => ⟨none, true, some (.cond (.failed "UnknownError" "issuer KeyPair is nil"))⟩
  | some rec =>
    match seedFetch with
    | .notFound =>
      ⟨none, true, some (.cond (.unk "IssuerSeedError" "failed to get issuer seed"))⟩
    | .fail m => ⟨none, false, some (.cond (.unk "IssuerSeedError" m))⟩
    | .ok sec =>
      match getKey sec.data natsSecretSeedKey with
      | none =>
        ⟨none, true, some (.cond (.failed "MalformedSeedSecret" "secret missing required field"))⟩
      | some seed =>
        match ext.seedPref seed with
        | none => ⟨none, true, some (.cond (.failed "MalformedSeedSecret" "failed to parse seed"))⟩
        | some pref =>
          if pref ≠ wantPref then
            ⟨none, true, some (.cond (.failed "MalformedSeedSecret" "unexpected seed prefix"))⟩
          else
            match ext.decodeSeed seed with
            | none =>
              ⟨none, true,
                some (.cond (.failed "UnknownError" "failed to get public key from seed"))⟩
            | some kp =>
              if kp.publicKey ≠ rec.publicKey then
                ⟨none, false, some (.cond (.failed "PublicKeyMismatch" "public key mismatch"))⟩
              else
                ⟨some kp, true, none⟩

def extC6 : Ext :=
  { decodeClaims := fun _ => none
    decodeSeed := fun s => if s = "s2" then some ⟨"s2", "PK2"⟩ else none
    seedPref := fun _ => none
    freshAccountKey := none
    freshUserKey := none
    createAccountClaims := fun _ _ => none
    createUserClaims := fun _ _ => none
    formatUserConfig := fun _ _ => none }

def stC6 : AccountStatus :=
  { seedSecretCond := markTrue, issuerResolvedCond := none, operatorResolvedCond := none
    signingKeysCond := none, jwtSecretCond := none, jwtPushedCond := none
    keyPair := some ⟨"PK1", "seed-sec"⟩, operatorRef := none, signingKeys := [] }

def gotC6 : Secret := ⟨"seed-sec", "ns", true, [(natsSecretSeedKey, "s2")]⟩

/-- Counterexample to C6: a stored seed decoding to public key PK2 while status records PK1; the Account seed-secret reconcile step succeeds with no error and no Failure condition, and silently overwrites the recorded status public key with the decoded one. -/
theorem ensureSeedSecret_pk_mismatch_counterexample :
    stC6.keyPair = some ⟨"PK1", "seed-sec"⟩ ∧
    (extC6.decodeSeed "s2").map NKey.publicKey = some "PK2" ∧
    (ensureSeedSecretUpToDateAcc extC6 true stC6 gotC6).ok = true ∧
    (ensureSeedSecretUpToDateAcc extC6 true stC6 gotC6).err = none ∧
    (ensureSeedSecretUpToDateAcc extC6 true stC6 gotC6).st.seedSecretCond = markTrue ∧
    (ensureSeedSecretUpToDateAcc extC6 true stC6 gotC6).st.keyPair =
      some ⟨"PK2", "seed-sec"⟩ := by
  decide

/-- C6 amended: when an issuer's stored seed decodes to a public key different from the issuer's recorded status public key, the Account controller's issuer-seed load marks the non-retryable IssuerResolveFailed condition with reason PublicKeyMismatch, returns no error to surface for backoff-retry, and leaves the Account's own recorded key pair untouched. -/
theorem loadIssuerSeedAcc_pk_mismatch_spec (ext : Ext) (sec : Secret) (st : AccountStatus)
    (issuer : KObj) (rec : KeyPairRec) (seed : String) (kp : NKey)
    (h1 : issuer.keyPair = some rec)
    (h2 : getKey sec.data natsSecretSeedKey = some seed)
    (h3 : ext.seedPref seed = some PrefByte.operator)
    (h4 : ext.decodeSeed seed = some kp)
    (h5 : kp.publicKey ≠ rec.publicKey) :
    (loadIssuerSeedAcc ext (.ok sec) st issuer).ok = false ∧
    (loadIssuerSeedAcc ext (.ok sec) st issuer).err = none ∧
    (loadIssuerSeedAcc ext (.ok sec) st issuer).st =
      markIssuerResolveFailedA "PublicKeyMismatch" "public key mismatch" st ∧
    (loadIssuerSeedAcc ext (.ok sec) st issuer).st.keyPair = st.keyPair := by
  unfold loadIssuerSeedAcc
  rw [h1]
  simp only [h2, h3, h4]
  simp [h5, markIssuerResolveFailedA]

def extC6b : Ext :=
  { extC6 with seedPref := fun s => if s = "s2" then some PrefByte.operator else none }

def issuerC6 : KObj :=
  { kind := "Operator", ns := "ns", name := "op", keyPairCapable := true
    keyPair := some ⟨"PKOP", "op-seed"⟩, seedSecretReadyCond := true
    ownerResolvedCond := false, ownerRef := ⟨"", "", ""⟩
    sysResolvedCond := false, resolvedSysAccount := ⟨"", ""⟩, accountServerURL := ""
    tls := TLSCfg.noTLS }

/-- Witness for the amended C6 at a concrete issuer whose seed decodes to PK2 while its status records PKOP: the mismatch marks IssuerResolveFailed with reason PublicKeyMismatch, surfaces no error, and the Account status key pair is untouched. -/
theorem loadIssuerSeedAcc_pk_mismatch_spec_witness :
    (loadIssuerSeedAcc extC6b (.ok gotC6) stC6 issuerC6).err = none ∧
    (loadIssuerSeedAcc extC6b (.ok gotC6) stC6 issuerC6).st.keyPair = stC6.keyPair := by
  have h := loadIssuerSeedAcc_pk_mismatch_spec extC6b gotC6 stC6 issuerC6 ⟨"PKOP", "op-seed"⟩
    "s2" ⟨"s2", "PK2"⟩ (by decide) (by decide) (by decide) (by decide) (by decide)
  exact ⟨h.2.1, h.2.2.2⟩

/-- Shallow embedding of AccountReconciler.loadCAFile (src/unnamed/part_000 lines 804 to 821): the fetch outcome of the selected secret plus the key lookup, with the key defaulting to ca.crt when unset. -/
def loadCAFile (caFetch : FetchRes Secret) (key : String) : Except String String :=
  match caFetch with
  | .notFound => .error "failed to get caFile secret"
  | .fail m => .error ("failed to get caFile secret: " ++ m)
  | .ok sec =>
    let k := if key = "" then "ca.crt" else key
    match getKey sec.data k with
    | none => .error "caFile secret missing key"
    | some v => .ok v

/-- Shallow embedding of AccountReconciler.getNATSOptions (src/unnamed/part_000 lines 784 to 802). The nats.Option list is abstracted to the optional CA bundle it would carry. -/
def getNATSOptions (caFetch : FetchRes Secret) (op : KObj) : Except String (Option String) :=
  match op.tls with
  | .noTLS => .ok none
  | .caFile _ key =>
    match loadCAFile caFetch key with
    | .error m => .error ("failed to load CA file: " ++ m)
    | .ok v => .ok (some v)
  | .invalid => .error "invalid TLS config: missing CA file"

/-- Result of the superseded isSystemAccount check: the boolean and an optional error. -/
structure SysCheckOut where
  isSys : Bool
  err : Option String
deriving DecidableEq, Repr

/-- Shallow embedding of AccountReconciler.isSystemAccount (src/controllers/account_controller.go lines 356 to 381, the superseded revision). opFetch is the outcome of getting the Operator named by status.OperatorRef. -/
def isSystemAccountOld (opFetch : FetchRes KObj) (acc : AccountObj) : SysCheckOut :=
  if !condIsTrue acc.status.operatorResolvedCond then ⟨true, none⟩
  else
    match opFetch with
    | .notFound => ⟨true, some "not found"⟩
    | .fail m => ⟨true, some m⟩
    | .ok op =>
      if !op.sysResolvedCond then ⟨true, none⟩
      else if acc.name = op.resolvedSysAccount.name ∧ acc.ns = op.resolvedSysAccount.ns then
        ⟨true, none⟩
      else ⟨false, none⟩

/-- C9: the system-account test fails closed, returning true whenever the operator-resolved condition is not True, the Operator fetch errs in any way, or the Operator's system account is unresolved; false arises only from a fetched Operator whose resolved system account differs in name or namespace, and then with no error. -/
theorem isSystemAccountOld_fails_closed (opFetch : FetchRes KObj) (acc : AccountObj) :
    (condIsTrue acc.status.operatorResolvedCond = false →
      isSystemAccountOld opFetch acc = ⟨true, none⟩) ∧
    (∀ m, opFetch = .fail m → (isSystemAccountOld opFetch acc).isSys = true) ∧
    (opFetch = .notFound → (isSystemAccountOld opFetch acc).isSys = true) ∧
    (∀ op, opFetch = .ok op → op.sysResolvedCond = false →
      (isSystemAccountOld opFetch acc).isSys = true) ∧
    ((isSystemAccountOld opFetch acc).isSys = false →
      (isSystemAccountOld opFetch acc).err = none ∧
      condIsTrue acc.status.operatorResolvedCond = true ∧
      ∃ op, opFetch = .ok op ∧ op.sysResolvedCond = true ∧
        (acc.name ≠ op.resolvedSysAccount.name ∨ acc.ns ≠ op.resolvedSysAccount.ns)) := by
  refine ⟨?_, ?_, ?_, ?_, ?_⟩
  · intro h
    unfold isSystemAccountOld
    simp [h]
  · intro m hm
    unfold isSystemAccountOld
    rw [hm]
    cases condIsTrue acc.status.operatorResolvedCond <;> simp
  · intro hm
    unfold isSystemAccountOld
    rw [hm]
    cases condIsTrue acc.status.operatorResolvedCond <;> simp
  · intro op hop hsys
    unfold isSystemAccountOld
    rw [hop]
    cases condIsTrue acc.status.operatorResolvedCond with
    | false => simp
    | true => simp [hsys]
  · intro hfalse
    unfold isSystemAccountOld at hfalse ⊢
    cases hres : condIsTrue acc.status.operatorResolvedCond with
    | false => simp [hres] at hfalse
    | true =>
      simp only [hres, Bool.not_true, Bool.false_eq_true, if_false] at hfalse ⊢
      cases hop : opFetch with
      | notFound => simp [hop] at hfalse
      | fail m => simp [hop] at hfalse
      | ok op =>
        simp only [hop] at hfalse ⊢
        cases hsys : op.sysResolvedCond with
        | false => simp [hsys] at hfalse
        | true =>
          simp only [hsys, Bool.not_true, Bool.false_eq_true, if_false] at hfalse ⊢
          by_cases hnm : acc.name = op.resolvedSysAccount.name ∧
            acc.ns = op.resolvedSysAccount.ns
          · simp [hnm] at hfalse
          · simp only [if_neg hnm] at hfalse ⊢
            rw [not_and_or] at hnm
            exact ⟨by trivial, by trivial, op, rfl, hsys, hnm⟩

def opC9 : KObj :=
  { kind := "Operator", ns := "opns", name := "op", keyPairCapable := true
    keyPair := some ⟨"PKOP", "op-seed"⟩, seedSecretReadyCond := true
    ownerResolvedCond := false, ownerRef := ⟨"", "", ""⟩
    sysResolvedCond := true, resolvedSysAccount := ⟨"ns", "sysacc"⟩, accountServerURL := "nats://x"
    tls := TLSCfg.noTLS }

def accC9 : AccountObj :=
  { ns := "ns", name := "tenant", uid := "u9"
    spec := { seedSecretName := "s", jwtSecretName := "j", issuer := ⟨"Operator", "opns", "op"⟩,
              hasSigningKeysSelector := false }
    status := { seedSecretCond := none, issuerResolvedCond := none
                operatorResolvedCond := markTrue
                signingKeysCond := none, jwtSecretCond := none, jwtPushedCond := none
                keyPair := none, operatorRef := some ⟨"opns", "op"⟩, signingKeys := [] }
    deletionSet := false, hasFinalizer := true }

/-- Witness for C9 at a concrete fetched Operator whose resolved system account differs from the Account: the test returns false with no error, and the fail-closed consequences hold. -/
theorem isSystemAccountOld_fails_closed_witness :
    (isSystemAccountOld (.ok opC9) accC9).err = none ∧
    condIsTrue accC9.status.operatorResolvedCond = true := by
  have h := isSystemAccountOld_fails_closed (.ok opC9) accC9
  have h5 := h.2.2.2.2 (by decide)
  exact ⟨h5.1, h5.2.1⟩

/-- Environment for finalizeAccount: the store and remote-authority outcomes it may consult. -/
structure FinalizeEnv where
  opFetch : FetchRes KObj
  opSeedFetch : FetchRes Secret
  sysLoad : FetchRes String
  caFetch : FetchRes Secret
  connectOk : Bool
  deleteOk : Bool

/-- Result of finalizeAccount: optional error, updated status, the public keys deleted remotely and the number of remote connections attempted. -/
structure FinalizeOut where
  err : Option String
  st : AccountStatus
  deletes : List String
  connects : Nat
deriving DecidableEq, Repr

/-- Shallow embedding of AccountReconciler.finalizeAccount (src/unnamed/part_000 lines 687 to 782). -/
def finalizeAccount (ext : Ext) (env : FinalizeEnv) (acc : AccountObj) : FinalizeOut :=
  if !condIsTrue acc.status.jwtSecretCond then ⟨none, acc.status, [], 0⟩
  else if !condIsTrue acc.status.jwtPushedCond then ⟨none, acc.status, [], 0⟩
  else
    match env.opFetch with
    | .notFound => ⟨none, acc.status, [], 0⟩
    | .fail m => ⟨some ("operator could not be loaded: " ++ m), acc.status, [], 0⟩
    | .ok op =>
      match op.keyPair with
      | none => ⟨some "operator not ready", acc.status, [], 0⟩
      | some _opKP =>
        match env.opSeedFetch with
        | .notFound => ⟨some "unable to load operator seed", acc.status, [], 0⟩
        | .fail m => ⟨some ("unable to load operator seed: " ++ m), acc.status, [], 0⟩
        | .ok opSeedSec =>
          match getKey opSeedSec.data natsSecretSeedKey with
          | none => ⟨some "operator seed secret missing property", acc.status, [], 0⟩
          | some seedData =>
            match ext.decodeSeed seedData with
            | none => ⟨some "failed to parse operator seed data", acc.status, [], 0⟩
            | some _operatorKP =>
              match env.sysLoad with
              | .notFound => ⟨none, acc.status, [], 0⟩
              | .fail m => ⟨some m, acc.status, [], 0⟩
              | .ok _sysSeed =>
                match getNATSOptions env.caFetch op with
                | .error m => ⟨some m, markJWTPushFailedA "UnknownError" m acc.status, [], 0⟩
                | .ok _opts =>
                  if !env.connectOk then
                    ⟨some "failed to connect to account server during finalization",
                      acc.status, [], 1⟩
                  else if env.deleteOk then
                    ⟨none, acc.status, [((acc.status.keyPair.getD ⟨"", ""⟩)).publicKey], 1⟩
                  else
                    ⟨some "failed to delete account JWT", acc.status,
                      [((acc.status.keyPair.getD ⟨"", ""⟩)).publicKey], 1⟩

def opC4 : KObj :=
  { kind := "Operator", ns := "opns", name := "op", keyPairCapable := true
    keyPair := some ⟨"PKOP", "op-seed"⟩, seedSecretReadyCond := true
    ownerResolvedCond := false, ownerRef := ⟨"", "", ""⟩
    sysResolvedCond := true, resolvedSysAccount := ⟨"ns", "sysacc"⟩, accountServerURL := "nats://x"
    tls := TLSCfg.noTLS }

def accC4 : AccountObj :=
  { ns := "ns", name := "tenant", uid := "u4"
    spec := { seedSecretName := "s", jwtSecretName := "j", issuer := ⟨"Operator", "opns", "op"⟩,
              hasSigningKeysSelector := false }
    status := { seedSecretCond := markTrue, issuerResolvedCond := markTrue
                operatorResolvedCond := markTrue
                signingKeysCond := markTrue, jwtSecretCond := markTrue, jwtPushedCond := markTrue
                keyPair := some ⟨"PKACC", "s"⟩, operatorRef := some ⟨"opns", "op"⟩
                signingKeys := [] }
    deletionSet := true, hasFinalizer := true }

def extC4 : Ext :=
  { decodeClaims := fun _ => none
    decodeSeed := fun s => if s = "opseed" then some ⟨"opseed", "PKOP"⟩ else none
    seedPref := fun _ => none
    freshAccountKey := none
    freshUserKey := none
    createAccountClaims := fun _ _ => none
    createUserClaims := fun _ _ => none
    formatUserConfig := fun _ _ => none }

def envC4bad : FinalizeEnv :=
  { opFetch := .ok opC4
    opSeedFetch := .ok ⟨"op-seed", "opns", true, [(natsSecretSeedKey, "opseed")]⟩
    sysLoad := .ok "sysseed"
    caFetch := .notFound
    connectOk := false
    deleteOk := true }

/-- Counterexample to C4: both finalization-gating conditions are True and both the resolved Operator and its system account exist, yet no remote delete is invoked because the connection to the remote authority fails; finalization aborts with an error instead. -/
theorem finalizeAccount_counterexample :
    condIsTrue accC4.status.jwtSecretCond = true ∧
    condIsTrue accC4.status.jwtPushedCond = true ∧
    envC4bad.opFetch = .ok opC4 ∧
    envC4bad.sysLoad = .ok "sysseed" ∧
    (finalizeAccount extC4 envC4bad accC4).deletes = [] ∧
    (finalizeAccount extC4 envC4bad accC4).err.isSome = true := by
  decide

/-- C4 amended: finalization skips the remote authority entirely (success, no connection, no delete) when either gating condition is not True or when the Operator or its system account is not found; when both conditions hold and the operator fetch, operator keypair, operator seed, system-account load, NATS options and connection all succeed, the remote delete is invoked exactly once with the Account's recorded public key. -/
theorem finalizeAccount_spec (ext : Ext) (env : FinalizeEnv) (acc : AccountObj) :
    (¬(condIsTrue acc.status.jwtSecretCond = true ∧
        condIsTrue acc.status.jwtPushedCond = true) →
      finalizeAccount ext env acc = ⟨none, acc.status, [], 0⟩) ∧
    (env.opFetch = .notFound →
      (finalizeAccount ext env acc).err = none ∧
      (finalizeAccount ext env acc).deletes = [] ∧
      (finalizeAccount ext env acc).connects = 0) ∧
    (env.sysLoad = .notFound →
      (finalizeAccount ext env acc).deletes = [] ∧
      (finalizeAccount ext env acc).connects = 0) ∧
    (∀ op opKP opSeedSec seedData opNK sysSeed opts,
      condIsTrue acc.status.jwtSecretCond = true →
      condIsTrue acc.status.jwtPushedCond = true →
      env.opFetch = .ok op → op.keyPair = some opKP →
      env.opSeedFetch = .ok opSeedSec →
      getKey opSeedSec.data natsSecretSeedKey = some seedData →
      ext.decodeSeed seedData = some opNK →
      env.sysLoad = .ok sysSeed →
      getNATSOptions env.caFetch op = .ok opts →
      env.connectOk = true →
      (finalizeAccount ext env acc).deletes =
        [((acc.status.keyPair.getD ⟨"", ""⟩)).publicKey] ∧
      (finalizeAccount ext env acc).connects = 1) := by
  refine ⟨?_, ?_, ?_, ?_⟩
  · intro hng
    unfold finalizeAccount
    cases h1 : condIsTrue acc.status.jwtSecretCond with
    | false => simp
    | true =>
      cases h2 : condIsTrue acc.status.jwtPushedCond with
      | false => simp
      | true => exact absurd ⟨h1, h2⟩ hng
  · intro hop
    unfold finalizeAccount
    rw [hop]
    cases condIsTrue acc.status.jwtSecretCond <;>
      cases condIsTrue acc.status.jwtPushedCond <;> simp
  · intro hsys
    unfold finalizeAccount
    rw [hsys]
    repeat' split
    all_goals simp_all
  · intro op opKP opSeedSec seedData opNK sysSeed opts h1 h2 hop hkp hseed hdata hdec hsys
      hopts hconn
    unfold finalizeAccount
    simp [h1, h2, hop, hkp, hseed, hdata, hdec, hsys, hopts, hconn]
    cases env.deleteOk <;> simp

def envC4good : FinalizeEnv := { envC4bad with connectOk := true }

/-- Witness for the amended C4 at the happy-path environment: the remote delete is invoked exactly once with the Account's recorded public key. -/
theorem finalizeAccount_spec_witness :
    (finalizeAccount extC4 envC4good accC4).deletes = ["PKACC"] ∧
    (finalizeAccount extC4 envC4good accC4).connects = 1 := by
  have h := (finalizeAccount_spec extC4 envC4good accC4).2.2.2 opC4 ⟨"PKOP", "op-seed"⟩
    ⟨"op-seed", "opns", true, [(natsSecretSeedKey, "opseed")]⟩ "opseed" ⟨"opseed", "PKOP"⟩
    "sysseed" none (by decide) (by decide) (by decide) (by decide) (by decide) (by decide)
    (by decide) (by decide) (by rfl) (by decide)
  exact h

/-- Environment for the publication step: the system-account load, CA fetch, connection and push outcomes. -/
structure PushEnv where
  sysLoad : FetchRes String
  caFetch : FetchRes Secret
  connectOk : Bool
  pushOk : Bool

/-- Result of the publication step: optional error, updated status, the tokens pushed remotely and the number of remote connections attempted. -/
structure PushOut where
  err : Option String
  st : AccountStatus
  pushes : List String
  connects : Nat
deriving DecidableEq, Repr

/-- Shallow embedding of AccountReconciler.ensureJWTPushed (src/unnamed/part_000 lines 642 to 685). -/
def ensureJWTPushed (env : PushEnv) (st : AccountStatus) (op : KObj) (ajwt : String) : PushOut :=
  match env.sysLoad with
  | .notFound =>
    ⟨some "failed to load system account",
      markJWTPushFailedA "UnknownError" "failed to load system account" st, [], 0⟩
  | .fail m => ⟨some m, markJWTPushFailedA "UnknownError" m st, [], 0⟩
  | .ok _ =>
    match getNATSOptions env.caFetch op with
    | .error m => ⟨some m, markJWTPushFailedA "UnknownError" m st, [], 0⟩
    | .ok _ =>
      if !env.connectOk then
        ⟨some "failed to connect to account server",
          markJWTPushFailedA "UnknownError" "failed to connect to account server" st, [], 1⟩
      else if !env.pushOk then
        ⟨some "failed to push account JWT to account server",
          markJWTPushFailedA "JWTPushError" "failed to push account JWT to account server" st,
          [ajwt], 1⟩
      else ⟨none, markJWTPushedA st, [ajwt], 1⟩

/-- Modelled from the spec: helpers.IsSystemAccount reports whether the Account is the resolved Operator's designated system account, by name and namespace (sections 4.6 and 8.6; the pkg/helpers package is not under src). -/
def isSystemAccount (acc : AccountObj) (op : KObj) : Bool :=
  op.resolvedSysAccount = ObjRef.mk acc.ns acc.name

/-- Shallow embedding of the publication branch of AccountReconciler.Reconcile (src/unnamed/part_000 lines 181 to 190): non-system Accounts are pushed, the system account has its push condition marked True immediately. -/
def publicationStep (env : PushEnv) (st : AccountStatus) (acc : AccountObj) (op : KObj)
    (ajwt : String) : PushOut :=
  if !isSystemAccount acc op then ensureJWTPushed env st op ajwt
  else ⟨none, markJWTPushedA st, [], 0⟩

/-- C7: when the Account is the resolved Operator's designated system account the publication step performs no remote connection or push and immediately marks the push condition True; any remote contact implies the Account is not the system account. -/
theorem publicationStep_system_account_spec (env : PushEnv) (st : AccountStatus)
    (acc : AccountObj) (op : KObj) (ajwt : String) :
    (isSystemAccount acc op = true →
      publicationStep env st acc op ajwt = ⟨none, markJWTPushedA st, [], 0⟩) ∧
    ((publicationStep env st acc op ajwt).pushes ≠ [] ∨
        (publicationStep env st acc op ajwt).connects ≠ 0 →
      isSystemAccount acc op = false) := by
  unfold publicationStep
  cases hsys : isSystemAccount acc op with
  | false => simp
  | true => simp

def opC7 : KObj := { opC4 with resolvedSysAccount := ⟨"ns", "sysacc"⟩ }

def accC7 : AccountObj := { accC4 with name := "sysacc", deletionSet := false }

def pushEnvC7 : PushEnv :=
  { sysLoad := .ok "sysseed", caFetch := .notFound, connectOk := true, pushOk := true }

/-- Witness for C7 at a concrete Account that is the Operator's designated system account: the publication step marks the push condition True with no remote calls. -/
theorem publicationStep_system_account_spec_witness :
    publicationStep pushEnvC7 accC7.status accC7 opC7 "tok" =
      ⟨none, markJWTPushedA accC7.status, [], 0⟩ := by
  exact (publicationStep_system_account_spec pushEnvC7 accC7.status accC7 opC7 "tok").1
    (by decide)

/-- Environment for signing-key owner resolution: the kind registry and the owner fetch. -/
structure OwnerEnv where
  schemeKnows : String → Bool
  isClientObj : String → Bool
  ownerFetch : String → String → FetchRes KObj

/-- Result of resolveSigningKeyOwner: the owner object, ok flag and optional error. -/
structure OwnerOut where
  owner : Option KObj
  ok : Bool
  err : Option RErr
deriving DecidableEq, Repr

/-- Shallow embedding of BaseReconciler.resolveSigningKeyOwner (src/controllers/base_controller.go lines 136 to 179). -/
def resolveSigningKeyOwner (env : OwnerEnv) (sk : KObj) : OwnerOut :=
  if !sk.ownerResolvedCond then
    ⟨none, true, some (.cond (.unk "NotReady" "signing key owner has not been resolved"))⟩
  else if !env.schemeKnows sk.ownerRef.kind then
    ⟨none, true, some (.cond (.failed "InvalidSigningKeyOwner" "unsupported GroupVersionKind"))⟩
  else if !env.isClientObj sk.ownerRef.kind then
    ⟨none, true, some (.cond (.failed "InvalidSigningKeyOwner"
      "runtime.Object cannot be converted to client.Object"))⟩
  else
    match env.ownerFetch sk.ownerRef.ns sk.ownerRef.name with
    | .notFound => ⟨none, true, some (.cond (.failed "NotFound" "not found"))⟩
    | .fail m => ⟨none, false, some (.cond (.unk "UnknownError" m))⟩
    | .ok o => ⟨some o, true, none⟩

/-- The status marking applied when a resolution step reports an error to the Account operator-resolved condition. -/
def applyOpErrA (e : Option RErr) (st : AccountStatus) : AccountStatus :=
  match e with
  | some (.cond ce) => applyCondErr ce markOperatorResolveFailedA markOperatorResolveUnknownA st
  | some (.plain m) => markOperatorResolveUnknownA "UnknownError" m st
  | none => markOperatorResolveUnknownA "UnknownError" "" st

/-- Result of resolveOperator: the Operator, ok flag, optional error and updated status. -/
structure ROpOut where
  op : Option KObj
  ok : Bool
  err : Option RErr
  st : AccountStatus
deriving DecidableEq, Repr

/-- Shallow embedding of AccountReconciler.resolveOperator (src/unnamed/part_000 lines 193 to 241). -/
def resolveOperator (env : OwnerEnv) (st : AccountStatus) (kp : KObj) : ROpOut :=
  if kp.kind = "Operator" then
    ⟨some kp, true, none, markOperatorResolvedA ⟨kp.ns, kp.name⟩ st⟩
  else if kp.kind = "SigningKey" then
    let r := resolveSigningKeyOwner env kp
    if r.err ≠ none ∨ r.ok = false then
      if r.ok then ⟨none, true, none, applyOpErrA r.err st⟩
      else ⟨none, false, r.err, applyOpErrA r.err st⟩
    else
      match r.owner with
      | some owner =>
        if owner.kind = "Operator" then
          ⟨some owner, true, none, markOperatorResolvedA ⟨owner.ns, owner.name⟩ st⟩
        else
          ⟨none, false, none,
            markOperatorResolveFailedA "InvalidSigningKeyOwner"
              "account issuer is not owned by an Operator" st⟩
      | none => ⟨none, false, none, st⟩
  else
    ⟨none, false, none,
      markOperatorResolveFailedA "UnsupportedIssuer"
        "invalid keypair, expected Operator or SigningKey" st⟩

/-- Result of the Account JWT-secret reconcile step. -/
structure JWTRecOutA where
  token : String
  ok : Bool
  err : Option RErr
  st : AccountStatus
  writes : List Secret
deriving DecidableEq, Repr

/-- Shallow embedding of AccountReconciler.reconcileJWTSecret together with createJWTSecret (src/unnamed/part_000 lines 444 to 473 and 556 to 587). -/
def reconcileJWTSecretAcc (ext : Ext) (jwtFetch : FetchRes Secret) (createOk updateOk : Bool)
    (st : AccountStatus) (acc : AccountObj) (issuerKP : NKey) : JWTRecOutA :=
  match ext.createAccountClaims { acc with status := st } issuerKP with
  | none =>
    ⟨"", false, some (.plain "failed to create account claims"),
      markJWTSecretFailedA "UnknownError" "failed to create account claims" st, []⟩
  | some (wantClaims, nextJWT) =>
    match jwtFetch with
    | .notFound =>
      if createOk then
        ⟨nextJWT, true, none, st, [buildNewJWTSecret acc.spec.jwtSecretName acc.ns false nextJWT]⟩
      else
        ⟨nextJWT, true, some (.plain "failed to create account JWT secret"),
          markJWTSecretFailedA "UnknownError" "failed to create account JWT secret" st, []⟩
    | .fail m => ⟨"", false, some (.plain m), markJWTSecretUnknownA "UnknownError" m st, []⟩
    | .ok got =>
      let r := ensureJWTSecretUpToDateAcc ext updateOk st wantClaims got nextJWT
      ⟨r.token, r.ok, r.err, r.st, r.writes⟩

/-- The status marking applied when issuer resolution reports an error to the Account issuer-resolved condition. -/
def applyIssuerErrA (e : Option RErr) (st : AccountStatus) : AccountStatus :=
  match e with
  | some (.cond ce) => applyCondErr ce markIssuerResolveFailedA markIssuerResolveUnknownA st
  | some (.plain m) => markIssuerResolveUnknownA "UnknownError" m st
  | none => markIssuerResolveUnknownA "UnknownError" "" st

/-- Environment for a full Account reconciliation pass: all store, listing and remote outcomes. -/
structure AccEnv where
  resolveEnv : ResolveEnv
  ownerEnv : OwnerEnv
  skEnv : SKListEnv
  seedFetch : FetchRes Secret
  seedCreateOk : Bool
  seedUpdateOk : Bool
  jwtFetch : FetchRes Secret
  jwtCreateOk : Bool
  jwtUpdateOk : Bool
  issuerSeedFetch : FetchRes Secret
  pushEnv : PushEnv
  finEnv : FinalizeEnv
  finalizerUpdateOk : Bool

/-- Result of a full Account reconciliation pass, with every side effect recorded. -/
structure ReconcileOutA where
  err : Option RErr
  st : AccountStatus
  secretWrites : List Secret
  pushes : List String
  deletes : List String
  connects : Nat
  keygens : Nat
  finalizerChanged : Bool
  statusWritten : Bool
deriving DecidableEq, Repr

/-- The pipeline portion of AccountReconciler.Reconcile (src/unnamed/part_000 lines 128 to 191): seed, issuer, operator, signing keys, issuer seed, JWT secret, publication. -/
def accountPipeline (ext : Ext) (env : AccEnv) (acc : AccountObj) (finChanged : Bool) :
    ReconcileOutA :=
  let seedR := reconcileSeedSecretAcc ext env.seedFetch env.seedCreateOk env.seedUpdateOk
    acc.status acc
  if seedR.err ≠ none ∨ seedR.ok = false then
    ⟨seedR.err, seedR.st, seedR.writes, [], [], 0, seedR.keygens, finChanged, false⟩
  else
    let ri := resolveIssuer env.resolveEnv acc.spec.issuer acc.ns
    if ri.err ≠ none ∨ ri.handled = false then
      if ri.handled then
        ⟨none, applyIssuerErrA ri.err seedR.st, seedR.writes, [], [], 0, seedR.keygens,
          finChanged, false⟩
      else
        ⟨ri.err, applyIssuerErrA ri.err seedR.st, seedR.writes, [], [], 0, seedR.keygens,
          finChanged, false⟩
    else
      match ri.kp with
      | none =>
        ⟨none, seedR.st, seedR.writes, [], [], 0, seedR.keygens, finChanged, false⟩
      | some keyPairable =>
        let ro := resolveOperator env.ownerEnv seedR.st keyPairable
        if ro.err ≠ none ∨ ro.ok = false then
          ⟨ro.err, ro.st, seedR.writes, [], [], 0, seedR.keygens, finChanged, false⟩
        else
          match ro.op with
          | none =>
            ⟨none, ro.st, seedR.writes, [], [], 0, seedR.keygens, finChanged, false⟩
          | some operator =>
            let sk := ensureSigningKeysUpdated env.skEnv { acc with status := ro.st }
            if sk.err ≠ none then
              ⟨sk.err, sk.st, seedR.writes, [], [], 0, seedR.keygens, finChanged, false⟩
            else
              let li := loadIssuerSeedAcc ext env.issuerSeedFetch sk.st keyPairable
              if li.err ≠ none ∨ li.ok = false then
                ⟨if li.ok then none else li.err, li.st, seedR.writes, [], [], 0,
                  seedR.keygens, finChanged, false⟩
              else
                match li.kp with
                | none =>
                  ⟨none, li.st, seedR.writes, [], [], 0, seedR.keygens, finChanged, false⟩
                | some issuerKP =>
                  let jr := reconcileJWTSecretAcc ext env.jwtFetch env.jwtCreateOk
                    env.jwtUpdateOk li.st acc issuerKP
                  if jr.err ≠ none ∨ jr.ok = false then
                    ⟨jr.err, jr.st, seedR.writes ++ jr.writes, [], [], 0, seedR.keygens,
                      finChanged, false⟩
                  else
                    let pub := publicationStep env.pushEnv jr.st acc operator jr.token
                    ⟨pub.err.map .plain, pub.st, seedR.writes ++ jr.writes, pub.pushes, [],
                      pub.connects, seedR.keygens, finChanged, false⟩

/-- Shallow embedding of AccountReconciler.Reconcile before the deferred status update (src/unnamed/part_000 lines 75 to 191): condition seeding, finalizer handling or the pipeline. -/
def accountReconcileCore (ext : Ext) (env : AccEnv) (acc : AccountObj) : ReconcileOutA :=
  let st0 := initAccountConds acc.status
  if acc.deletionSet then
    if acc.hasFinalizer then
      let fin := finalizeAccount ext env.finEnv { acc with status := st0 }
      if fin.err ≠ none then
        ⟨fin.err.map .plain, fin.st, [], [], fin.deletes, fin.connects, 0, false, false⟩
      else if env.finalizerUpdateOk then
        ⟨none, fin.st, [], [], fin.deletes, fin.connects, 0, true, false⟩
      else
        ⟨some (.plain "failed to update account"), fin.st, [], [], fin.deletes, fin.connects,
          0, false, false⟩
    else
      ⟨none, st0, [], [], [], 0, 0, false, false⟩
  else
    if !acc.hasFinalizer && !env.finalizerUpdateOk then
      ⟨some (.plain "failed to update account"), st0, [], [], [], 0, 0, false, false⟩
    else
      accountPipeline ext env { acc with status := st0, hasFinalizer := true } (!acc.hasFinalizer)

/-- The deferred comparison equality.Semantic.DeepEqual(originalStatus, status) as the code actually performs it (src/unnamed/part_000 line 95, src/controllers/user_controller.go line 83): originalStatus is the pointer returned by DeepCopy while the second argument is the status value, so the reflect-based top-level type check fails and the comparison returns false regardless of the contents. -/
def semanticDeepEqualPtrVal {σ : Type} (_snapshot _current : σ) : Bool := false

/-- Shallow embedding of AccountReconciler.Reconcile including the deferred status update (src/unnamed/part_000 lines 90 to 102): the status sub-resource is written iff the deferred DeepEqual between the pointer-typed snapshot and the value-typed status fails; that comparison is always false, so the write fires on every pass. -/
def accountReconcile (ext : Ext) (env : AccEnv) (acc : AccountObj) : ReconcileOutA :=
  let core := accountReconcileCore ext env acc
  { core with statusWritten := !semanticDeepEqualPtrVal acc.status core.st }

theorem finalizeAccount_signingKeys (ext : Ext) (env : FinalizeEnv) (acc : AccountObj) :
    (finalizeAccount ext env acc).st.signingKeys = acc.status.signingKeys := by
  unfold finalizeAccount
  repeat' split
  all_goals simp [markJWTPushFailedA]

/-- C10: when the deletion timestamp is set, a reconciliation pass performs no secret writes, generates no keypair, pushes no JWT, and leaves the signing-key membership untouched; only the finalization path runs. -/
theorem accountReconcile_deletion_frame (ext : Ext) (env : AccEnv) (acc : AccountObj)
    (h : acc.deletionSet = true) :
    (accountReconcile ext env acc).secretWrites = [] ∧
    (accountReconcile ext env acc).pushes = [] ∧
    (accountReconcile ext env acc).keygens = 0 ∧
    (accountReconcile ext env acc).st.signingKeys = acc.status.signingKeys := by
  unfold accountReconcile accountReconcileCore
  rw [h]
  have hfin := finalizeAccount_signingKeys ext env.finEnv
    { acc with status := initAccountConds acc.status }
  cases hf : acc.hasFinalizer with
  | false => simp [initAccountConds]
  | true =>
    simp only [if_true, hf]
    split
    · simp_all [initAccountConds]
    · split <;> simp_all [initAccountConds]

def envC10 : AccEnv :=
  { resolveEnv := ⟨fun _ => true, fun _ => true, fun _ _ => .notFound⟩
    ownerEnv := ⟨fun _ => true, fun _ => true, fun _ _ => .notFound⟩
    skEnv := ⟨true, .ok []⟩
    seedFetch := .notFound, seedCreateOk := true, seedUpdateOk := true
    jwtFetch := .notFound, jwtCreateOk := true, jwtUpdateOk := true
    issuerSeedFetch := .notFound
    pushEnv := ⟨.ok "sys", .notFound, true, true⟩
    finEnv := envC4good
    finalizerUpdateOk := true }

/-- Witness for C10 at a concrete deletion-marked Account: the pass writes no secrets, pushes nothing, generates no keypair, and preserves the signing-key membership, while finalization performs its remote delete. -/
theorem accountReconcile_deletion_frame_witness :
    (accountReconcile extC4 envC10 accC4).secretWrites = [] ∧
    (accountReconcile extC4 envC10 accC4).pushes = [] ∧
    (accountReconcile extC4 envC10 accC4).keygens = 0 ∧
    (accountReconcile extC4 envC10 accC4).st.signingKeys = accC4.status.signingKeys := by
  exact accountReconcile_deletion_frame extC4 envC10 accC4 (by decide)

/-- The status marking applied when a resolution step reports an error to the User account-resolved condition. -/
def applyAccErrU (e : Option RErr) (st : UserStatus) : UserStatus :=
  match e with
  | some (.cond ce) => applyCondErr ce markAccountResolveFailedU markAccountResolveUnknownU st
  | some (.plain m) => markAccountResolveUnknownU "UnknownError" m st
  | none => markAccountResolveUnknownU "UnknownError" "" st

/-- The status marking applied when issuer resolution reports an error to the User issuer-resolved condition. -/
def applyIssuerErrU (e : Option RErr) (st : UserStatus) : UserStatus :=
  match e with
  | some (.cond ce) => applyCondErr ce markIssuerResolveFailedU markIssuerResolveUnknownU st
  | some (.plain m) => markIssuerResolveUnknownU "UnknownError" m st
  | none => markIssuerResolveUnknownU "UnknownError" "" st

/-- Result of resolveAccount: the Account, ok flag, optional error and updated status. -/
structure RAccOut where
  acct : Option KObj
  ok : Bool
  err : Option RErr
  st : UserStatus
deriving DecidableEq, Repr

/-- Shallow embedding of UserReconciler.resolveAccount (src/controllers/user_controller.go lines 233 to 281). -/
def resolveAccount (env : OwnerEnv) (st : UserStatus) (kp : KObj) : RAccOut :=
  if kp.kind = "Account" then
    ⟨some kp, true, none, markAccountResolvedU ⟨kp.ns, kp.name⟩ st⟩
  else if kp.kind = "SigningKey" then
    let r := resolveSigningKeyOwner env kp
    if r.err ≠ none ∨ r.ok = false then
      if r.ok then ⟨none, true, none, applyAccErrU r.err st⟩
      else ⟨none, false, r.err, applyAccErrU r.err st⟩
    else
      match r.owner with
      | some owner =>
        if owner.kind = "Account" then
          ⟨some owner, true, none, markAccountResolvedU ⟨owner.ns, owner.name⟩ st⟩
        else
          ⟨none, false, none,
            markAccountResolveFailedU "InvalidSigningKeyOwner"
              "user issuer is not owned by an Account" st⟩
      | none => ⟨none, false, none, st⟩
  else
    ⟨none, false, none,
      markAccountResolveFailedU "UnsupportedIssuer"
        "invalid keypair, expected Account or SigningKey" st⟩

/-- Shallow embedding of UserReconciler.reconcileJWTSecret together with createJWTSecret (src/controllers/user_controller.go lines 283 to 357). -/
def reconcileJWTSecretUser (ext : Ext) (issuerSeedFetch jwtFetch : FetchRes Secret)
    (createOk updateOk : Bool) (st : UserStatus) (usr : UserObj) (keyPairable : KObj) :
    JWTUpdOut UserStatus :=
  let li := loadIssuerSeedBase ext issuerSeedFetch keyPairable PrefByte.account
  if li.err ≠ none ∨ li.ok = false then
    ⟨"", li.ok, li.err, applyIssuerErrU li.err st, []⟩
  else
    match li.kp with
    | none => ⟨"", true, none, markIssuerResolvedU st, []⟩
    | some issuerKP =>
      match ext.createUserClaims { usr with status := markIssuerResolvedU st } issuerKP with
      | none =>
        ⟨"", false, none,
          markJWTSecretFailedU "UnknownError" "failed to create user claims"
            (markIssuerResolvedU st), []⟩
      | some (_wantClaims, nextJWT) =>
        match jwtFetch with
        | .notFound =>
          if createOk then
            ⟨nextJWT, true, none, markIssuerResolvedU st,
              [buildNewJWTSecret usr.spec.jwtSecretName usr.ns true nextJWT]⟩
          else
            ⟨"", false, some (.plain "failed to create user JWT secret"),
              markJWTSecretFailedU "UnknownError" "failed to create user JWT secret"
                (markIssuerResolvedU st), []⟩
        | .fail m =>
          ⟨"", false, some (.plain m),
            markJWTSecretUnknownU "UnknownError" m (markIssuerResolvedU st), []⟩
        | .ok got =>
          ensureJWTSecretUpToDateUser ext updateOk (markIssuerResolvedU st) _wantClaims got
            nextJWT

/-- Result of the credentials-secret steps: optional error, updated status and secret writes. -/
structure CredsOut where
  err : Option RErr
  st : UserStatus
  writes : List Secret
deriving DecidableEq, Repr

/-- Shallow embedding of UserReconciler.ensureCredentialsSecretUpToDate (src/controllers/user_controller.go lines 464 to 497). -/
def ensureCredentialsSecretUpToDate (ext : Ext) (updateOk : Bool) (st : UserStatus)
    (ujwt seed : String) (got : Secret) : CredsOut :=
  match ext.formatUserConfig ujwt seed with
  | none =>
    ⟨some (.plain "failed to build desired credentials secret"),
      markCredsSecretFailedU "UnknownError" "failed to build desired credentials secret" st, []⟩
  | some creds =>
    let want := buildCredsSecretFrom got creds
    if got = want then ⟨none, markCredsSecretReadyU st, []⟩
    else if updateOk then ⟨none, markCredsSecretReadyU st, [want]⟩
    else
      ⟨some (.plain "failed to update credentials secret"),
        markCredsSecretFailedU "UnknownError" "failed to update credentials secret" st, []⟩

/-- Shallow embedding of UserReconciler.createCredentialsSecret (src/controllers/user_controller.go lines 437 to 462). -/
def createCredentialsSecret (ext : Ext) (createOk : Bool) (st : UserStatus) (usr : UserObj)
    (ujwt seed : String) : CredsOut :=
  match ext.formatUserConfig ujwt seed with
  | none =>
    ⟨some (.plain "failed to build credentials secret"),
      markCredsSecretFailedU "UnknownError" "failed to build credentials secret" st, []⟩
  | some creds =>
    if createOk then
      ⟨none, markCredsSecretReadyU st,
        [buildNewCredsSecret usr.spec.credentialsSecretName usr.ns creds]⟩
    else
      ⟨some (.plain "failed to create credentials secret"),
        markCredsSecretFailedU "UnknownError" "failed to create credentials secret" st, []⟩

/-- Shallow embedding of UserReconciler.reconcileUserCredentialSecret (src/controllers/user_controller.go lines 412 to 435). -/
def reconcileUserCredentialSecret (ext : Ext) (credsFetch : FetchRes Secret)
    (createOk updateOk : Bool) (st : UserStatus) (usr : UserObj) (ujwt seed : String) :
    CredsOut :=
  match credsFetch with
  | .notFound => createCredentialsSecret ext createOk st usr ujwt seed
  | .fail m => ⟨some (.plain m), markCredsSecretUnknownU "UnknownError" m st, []⟩
  | .ok got => ensureCredentialsSecretUpToDate ext updateOk st ujwt seed got

/-- Environment for a full User reconciliation pass. -/
structure UserEnv where
  resolveEnv : ResolveEnv
  ownerEnv : OwnerEnv
  seedFetch : FetchRes Secret
  seedCreateOk : Bool
  seedUpdateOk : Bool
  issuerSeedFetch : FetchRes Secret
  jwtFetch : FetchRes Secret
  jwtCreateOk : Bool
  jwtUpdateOk : Bool
  credsFetch : FetchRes Secret
  credsCreateOk : Bool
  credsUpdateOk : Bool

/-- Result of a full User reconciliation pass, with every side effect recorded. -/
structure ReconcileOutU where
  err : Option RErr
  st : UserStatus
  secretWrites : List Secret
  keygens : Nat
  statusWritten : Bool
deriving DecidableEq, Repr

/-- Shallow embedding of UserReconciler.Reconcile before the deferred status update (src/controllers/user_controller.go lines 65 to 144): seed, issuer, account, JWT secret, credentials secret. -/
def userReconcileCore (ext : Ext) (env : UserEnv) (usr : UserObj) : ReconcileOutU :=
  let st0 := initUserConds usr.status
  let seedR := reconcileSeedSecretUser ext env.seedFetch env.seedCreateOk env.seedUpdateOk
    st0 usr
  if seedR.err ≠ none ∨ seedR.ok = false then
    ⟨seedR.err, seedR.st, seedR.writes, seedR.keygens, false⟩
  else
    match seedR.seed with
    | none => ⟨none, seedR.st, seedR.writes, seedR.keygens, false⟩
    | some seedBytes =>
      let ri := resolveIssuer env.resolveEnv usr.spec.issuer usr.ns
      if ri.err ≠ none ∨ ri.handled = false then
        if ri.handled then
          ⟨none, applyIssuerErrU ri.err seedR.st, seedR.writes, seedR.keygens, false⟩
        else
          ⟨ri.err, applyIssuerErrU ri.err seedR.st, seedR.writes, seedR.keygens, false⟩
      else
        match ri.kp with
        | none => ⟨none, seedR.st, seedR.writes, seedR.keygens, false⟩
        | some keyPairable =>
          let ra := resolveAccount env.ownerEnv seedR.st keyPairable
          if ra.err ≠ none ∨ ra.ok = false then
            ⟨ra.err, ra.st, seedR.writes, seedR.keygens, false⟩
          else
            let jr := reconcileJWTSecretUser ext env.issuerSeedFetch env.jwtFetch
              env.jwtCreateOk env.jwtUpdateOk ra.st usr keyPairable
            if jr.err ≠ none ∨ jr.ok = false then
              if jr.ok then
                ⟨none, jr.st, seedR.writes ++ jr.writes, seedR.keygens, false⟩
              else
                ⟨jr.err, jr.st, seedR.writes ++ jr.writes, seedR.keygens, false⟩
            else
              let cr := reconcileUserCredentialSecret ext env.credsFetch env.credsCreateOk
                env.credsUpdateOk jr.st usr jr.token seedBytes
              ⟨cr.err, cr.st, seedR.writes ++ jr.writes ++ cr.writes, seedR.keygens, false⟩

/-- Shallow embedding of UserReconciler.Reconcile including the deferred status update (src/controllers/user_controller.go lines 78 to 90): the status sub-resource is written iff the deferred DeepEqual between the pointer-typed snapshot and the value-typed status fails; that comparison is always false, so the write fires on every pass. -/
def userReconcile (ext : Ext) (env : UserEnv) (usr : UserObj) : ReconcileOutU :=
  let core := userReconcileCore ext env usr
  { core with statusWritten := !semanticDeepEqualPtrVal usr.status core.st }

theorem ensureSeedSecretUpToDateBase_writes (ext : Ext) (wp uOk : Bool) (s : Secret) :
    ∀ w ∈ (ensureSeedSecretUpToDateBase ext wp uOk s).writes,
      ∃ sd kp, getKey s.data natsSecretSeedKey = some sd ∧ ext.decodeSeed sd = some kp ∧
        w = buildKeyPairSecretFrom wp s kp := by
  unfold ensureSeedSecretUpToDateBase
  cases hsd : getKey s.data natsSecretSeedKey with
  | none => simp [hsd]
  | some sd =>
    cases hdec : ext.decodeSeed sd with
    | none => simp [hsd, hdec]
    | some kp =>
      simp only [hsd, hdec]
      repeat' split
      all_goals intro w hw
      all_goals
        first
        | exact absurd hw (List.not_mem_nil w)
        | (simp only [List.mem_singleton] at hw
           exact ⟨sd, kp, rfl, hdec, hw⟩)

theorem reconcileSeedSecretUser_ok_keygens (ext : Ext) (s : Secret) (cOk uOk : Bool)
    (st : UserStatus) (usr : UserObj) :
    (reconcileSeedSecretUser ext (.ok s) cOk uOk st usr).keygens = 0 := by
  unfold reconcileSeedSecretUser
  simp only []
  repeat' split
  all_goals rfl

theorem reconcileSeedSecretUser_notFound_keygens (ext : Ext) (cOk uOk : Bool)
    (st : UserStatus) (usr : UserObj) :
    (reconcileSeedSecretUser ext .notFound cOk uOk st usr).keygens = 1 := by
  unfold reconcileSeedSecretUser createSeedSecretUser
  simp only []
  repeat' split
  all_goals rfl

theorem reconcileSeedSecretUser_ok_writes (ext : Ext) (s : Secret) (cOk uOk : Bool)
    (st : UserStatus) (usr : UserObj) :
    ∀ w ∈ (reconcileSeedSecretUser ext (.ok s) cOk uOk st usr).writes,
      ∃ sd kp, getKey s.data natsSecretSeedKey = some sd ∧ ext.decodeSeed sd = some kp ∧
        w = buildKeyPairSecretFrom true s kp := by
  have hbase := ensureSeedSecretUpToDateBase_writes ext true uOk s
  unfold reconcileSeedSecretUser
  simp only []
  repeat' split
  all_goals intro w hw
  all_goals exact hbase w hw

theorem ensureJWTSecretUpToDateUser_writes_name (ext : Ext) (uOk : Bool) (st : UserStatus)
    (want : Claims) (got : Secret) (next : String) :
    ∀ w ∈ (ensureJWTSecretUpToDateUser ext uOk st want got next).writes,
      w.name = got.name := by
  intro w hw
  unfold ensureJWTSecretUpToDateUser at hw
  repeat' split at hw
  all_goals
    first
    | exact absurd hw (List.not_mem_nil w)
    | (simp only [List.mem_singleton] at hw
       subst hw
       rfl)

theorem reconcileJWTSecretUser_writes (ext : Ext) (isf jf : FetchRes Secret)
    (cOk uOk : Bool) (st : UserStatus) (usr : UserObj) (kobj : KObj) :
    ∀ w ∈ (reconcileJWTSecretUser ext isf jf cOk uOk st usr kobj).writes,
      w.name = usr.spec.jwtSecretName ∨ ∃ g, jf = FetchRes.ok g ∧ w.name = g.name := by
  cases jf with
  | notFound =>
    intro w hw
    unfold reconcileJWTSecretUser at hw
    rcases hli : loadIssuerSeedBase ext isf kobj PrefByte.account with ⟨likp, liok, lierr⟩
    rw [hli] at hw
    simp only [] at hw
    repeat' split at hw
    all_goals
      first
      | exact absurd hw (List.not_mem_nil w)
      | (simp only [List.mem_singleton] at hw
         subst hw
         exact Or.inl rfl)
  | fail m =>
    intro w hw
    unfold reconcileJWTSecretUser at hw
    rcases hli : loadIssuerSeedBase ext isf kobj PrefByte.account with ⟨likp, liok, lierr⟩
    rw [hli] at hw
    simp only [] at hw
    repeat' split at hw
    all_goals exact absurd hw (List.not_mem_nil w)
  | ok g =>
    intro w hw
    unfold reconcileJWTSecretUser at hw
    rcases hli : loadIssuerSeedBase ext isf kobj PrefByte.account with ⟨likp, liok, lierr⟩
    rw [hli] at hw
    simp only [] at hw
    repeat' split at hw
    all_goals
      first
      | exact absurd hw (List.not_mem_nil w)
      | exact Or.inr ⟨g, rfl, ensureJWTSecretUpToDateUser_writes_name _ _ _ _ _ _ w hw⟩

theorem reconcileUserCredentialSecret_writes (ext : Ext) (cf : FetchRes Secret)
    (cOk uOk : Bool) (st : UserStatus) (usr : UserObj) (t s2 : String) :
    ∀ w ∈ (reconcileUserCredentialSecret ext cf cOk uOk st usr t s2).writes,
      w.name = usr.spec.credentialsSecretName ∨ ∃ g, cf = FetchRes.ok g ∧ w.name = g.name := by
  cases cf with
  | notFound =>
    intro w hw
    unfold reconcileUserCredentialSecret createCredentialsSecret at hw
    simp only [] at hw
    repeat' split at hw
    all_goals
      first
      | exact absurd hw (List.not_mem_nil w)
      | (simp only [List.mem_singleton] at hw
         subst hw
         exact Or.inl rfl)
  | fail m =>
    intro w hw
    unfold reconcileUserCredentialSecret at hw
    simp only [] at hw
    exact absurd hw (List.not_mem_nil w)
  | ok g =>
    intro w hw
    unfold reconcileUserCredentialSecret ensureCredentialsSecretUpToDate at hw
    simp only [] at hw
    repeat' split at hw
    all_goals
      first
      | exact absurd hw (List.not_mem_nil w)
      | (simp only [List.mem_singleton] at hw
         subst hw
         exact Or.inr ⟨g, rfl, rfl⟩)

theorem userReconcileCore_keygens (ext : Ext) (env : UserEnv) (usr : UserObj) :
    (userReconcileCore ext env usr).keygens =
      (reconcileSeedSecretUser ext env.seedFetch env.seedCreateOk env.seedUpdateOk
        (initUserConds usr.status) usr).keygens := by
  unfold userReconcileCore
  simp only []
  repeat' split
  all_goals rfl

theorem userReconcileCore_writes (ext : Ext) (env : UserEnv) (usr : UserObj) :
    ∀ w ∈ (userReconcileCore ext env usr).secretWrites,
      w ∈ (reconcileSeedSecretUser ext env.seedFetch env.seedCreateOk env.seedUpdateOk
        (initUserConds usr.status) usr).writes ∨
      w.name = usr.spec.jwtSecretName ∨
      (∃ g, env.jwtFetch = FetchRes.ok g ∧ w.name = g.name) ∨
      w.name = usr.spec.credentialsSecretName ∨
      (∃ g, env.credsFetch = FetchRes.ok g ∧ w.name = g.name) := by
  intro w hw
  unfold userReconcileCore at hw
  simp only [] at hw
  repeat' split at hw
  all_goals
    first
    | exact Or.inl hw
    | (rcases List.mem_append.mp hw with h | h
       · exact Or.inl h
       · rcases reconcileJWTSecretUser_writes _ _ _ _ _ _ _ _ w h with h2 | h2
         · exact Or.inr (Or.inl h2)
         · exact Or.inr (Or.inr (Or.inl h2)))
    | (rcases List.mem_append.mp hw with h | h
       · rcases List.mem_append.mp h with h3 | h3
         · exact Or.inl h3
         · rcases reconcileJWTSecretUser_writes _ _ _ _ _ _ _ _ w h3 with h2 | h2
           · exact Or.inr (Or.inl h2)
           · exact Or.inr (Or.inr (Or.inl h2))
       · rcases reconcileUserCredentialSecret_writes _ _ _ _ _ _ _ _ w h with h2 | h2
         · exact Or.inr (Or.inr (Or.inr (Or.inl h2)))
         · exact Or.inr (Or.inr (Or.inr (Or.inr h2))))

/-- C8: a User reconciliation pass generates a fresh keypair exactly when the seed secret is absent; when the seed secret exists, no keypair is generated even if the sibling JWT or credentials secrets are missing, and any write to the seed secret is the repair of the fetched secret toward its own decoded keypair. -/
theorem userReconcile_seed_lifecycle (ext : Ext) (env : UserEnv) (usr : UserObj) :
    (env.seedFetch = FetchRes.notFound → (userReconcile ext env usr).keygens = 1) ∧
    (∀ s, env.seedFetch = FetchRes.ok s →
      (userReconcile ext env usr).keygens = 0 ∧
      (usr.spec.jwtSecretName ≠ usr.spec.seedSecretName →
        usr.spec.credentialsSecretName ≠ usr.spec.seedSecretName →
        (∀ g, env.jwtFetch = FetchRes.ok g → g.name = usr.spec.jwtSecretName) →
        (∀ g, env.credsFetch = FetchRes.ok g → g.name = usr.spec.credentialsSecretName) →
        ∀ w ∈ (userReconcile ext env usr).secretWrites,
          w.name = usr.spec.seedSecretName →
          ∃ sd kp, getKey s.data natsSecretSeedKey = some sd ∧
            ext.decodeSeed sd = some kp ∧ w = buildKeyPairSecretFrom true s kp)) := by
  have hkg := userReconcileCore_keygens ext env usr
  have hwr := userReconcileCore_writes ext env usr
  constructor
  · intro hnf
    show (userReconcileCore ext env usr).keygens = 1
    rw [hkg, hnf]
    exact reconcileSeedSecretUser_notFound_keygens ext env.seedCreateOk env.seedUpdateOk
      (initUserConds usr.status) usr
  · intro s hs
    constructor
    · show (userReconcileCore ext env usr).keygens = 0
      rw [hkg, hs]
      exact reconcileSeedSecretUser_ok_keygens ext s env.seedCreateOk env.seedUpdateOk
        (initUserConds usr.status) usr
    · intro hd1 hd2 hjn hcn w hwmem hwn
      have hmem : w ∈ (userReconcileCore ext env usr).secretWrites := hwmem
      rcases hwr w hmem with h | h | h | h | h
      · rw [hs] at h
        exact reconcileSeedSecretUser_ok_writes ext s env.seedCreateOk env.seedUpdateOk
          (initUserConds usr.status) usr w h
      · rw [hwn] at h
        exact absurd h.symm hd1
      · rcases h with ⟨g, hg, hn⟩
        rw [hwn] at hn
        rw [hjn g hg] at hn
        exact absurd hn.symm hd1
      · rw [hwn] at h
        exact absurd h.symm hd2
      · rcases h with ⟨g, hg, hn⟩
        rw [hwn] at hn
        rw [hcn g hg] at hn
        exact absurd hn.symm hd2

def usrW : UserObj :=
  { ns := "ns", name := "alice"
    spec := { seedSecretName := "alice-seed", jwtSecretName := "alice-jwt"
              credentialsSecretName := "alice-creds", issuer := ⟨"Account", "", "acc"⟩ }
    status := ⟨none, none, none, none, none, none, none⟩ }

def userEnvW : UserEnv :=
  { resolveEnv := ⟨fun _ => true, fun _ => true, fun _ _ => .notFound⟩
    ownerEnv := ⟨fun _ => true, fun _ => true, fun _ _ => .notFound⟩
    seedFetch := .notFound, seedCreateOk := true, seedUpdateOk := true
    issuerSeedFetch := .notFound
    jwtFetch := .notFound, jwtCreateOk := true, jwtUpdateOk := true
    credsFetch := .notFound, credsCreateOk := true, credsUpdateOk := true }

def extW8 : Ext :=
  { decodeClaims := fun _ => none
    decodeSeed := fun _ => none
    seedPref := fun _ => none
    freshAccountKey := none
    freshUserKey := some ⟨"useed", "UPK"⟩
    createAccountClaims := fun _ _ => none
    createUserClaims := fun _ _ => none
    formatUserConfig := fun _ _ => none }

/-- Witness for C8 at a concrete User whose seed secret is absent: the pass generates exactly one fresh keypair. -/
theorem userReconcile_seed_lifecycle_witness :
    (userReconcile extW8 userEnvW usrW).keygens = 1 := by
  exact (userReconcile_seed_lifecycle extW8 userEnvW usrW).1 (by decide)

/-- The fully converged Account status: every condition True, the recorded key pair, operator reference and signing-key membership matching the observed state. -/
def convergedAccountStatus (kp : NKey) (seedName : String) (opRef : ObjRef)
    (sks : List SKEntry) : AccountStatus :=
  { seedSecretCond := markTrue, issuerResolvedCond := markTrue
    operatorResolvedCond := markTrue, signingKeysCond := markTrue
    jwtSecretCond := markTrue, jwtPushedCond := markTrue
    keyPair := some ⟨kp.publicKey, seedName⟩, operatorRef := some opRef, signingKeys := sks }

/-- An Account whose observed state already matches its desired state: seed secret equal to its desired representation, signing-key membership unchanged, stored JWT claims canonically equal, all conditions already True, and the publication path healthy. -/
def AccountConverged (ext : Ext) (env : AccEnv) (acc : AccountObj) (s : Secret) (sd : String)
    (kp : NKey) (op : KObj) (sks : List SKEntry) (l : List SigningKeyObj) (irec : KeyPairRec)
    (isec : Secret) (isd : String) (ikp : NKey) (want : Claims) (next : String) (js : Secret)
    (t : String) (c : Claims) (ss : String) (opts : Option String) : Prop :=
  acc.deletionSet = false ∧
  acc.hasFinalizer = true ∧
  acc.status = convergedAccountStatus kp s.name ⟨op.ns, op.name⟩ sks ∧
  env.seedFetch = FetchRes.ok s ∧
  getKey s.data natsSecretSeedKey = some sd ∧
  ext.decodeSeed sd = some kp ∧
  buildKeyPairSecretFrom false s kp = s ∧
  env.resolveEnv.schemeKnows acc.spec.issuer.kind = true ∧
  env.resolveEnv.isClientObj acc.spec.issuer.kind = true ∧
  env.resolveEnv.fetch (lookupNs acc.spec.issuer.ns acc.ns) acc.spec.issuer.name =
    FetchRes.ok op ∧
  op.kind = "Operator" ∧
  op.keyPairCapable = true ∧
  op.seedSecretReadyCond = true ∧
  (acc.spec.hasSigningKeysSelector && !env.skEnv.selectorOk) = false ∧
  env.skEnv.listing = Except.ok l ∧
  desiredSigningKeys ⟨acc.ns, acc.name⟩ l = sks ∧
  op.keyPair = some irec ∧
  env.issuerSeedFetch = FetchRes.ok isec ∧
  getKey isec.data natsSecretSeedKey = some isd ∧
  ext.seedPref isd = some PrefByte.operator ∧
  ext.decodeSeed isd = some ikp ∧
  ikp.publicKey = irec.publicKey ∧
  ext.createAccountClaims acc ikp = some (want, next) ∧
  env.jwtFetch = FetchRes.ok js ∧
  getKey js.data natsSecretJWTKey = some t ∧
  ext.decodeClaims t = some c ∧
  nscDeepEqual c want = true ∧
  env.pushEnv.sysLoad = FetchRes.ok ss ∧
  getNATSOptions env.pushEnv.caFetch op = Except.ok opts ∧
  env.pushEnv.connectOk = true ∧
  env.pushEnv.pushOk = true

theorem accountConverged_frame (ext : Ext) (env : AccEnv) (acc : AccountObj) (s : Secret)
    (sd : String) (kp : NKey) (op : KObj) (sks : List SKEntry) (l : List SigningKeyObj)
    (irec : KeyPairRec) (isec : Secret) (isd : String) (ikp : NKey) (want : Claims)
    (next : String) (js : Secret) (t : String) (c : Claims) (ss : String)
    (opts : Option String)
    (h : AccountConverged ext env acc s sd kp op sks l irec isec isd ikp want next js t c
      ss opts) :
    (accountReconcile ext env acc).secretWrites = [] ∧
    (accountReconcile ext env acc).st = acc.status ∧
    (accountReconcile ext env acc).statusWritten = true ∧
    (accountReconcile ext env acc).err = none ∧
    (accountReconcile ext env acc).deletes = [] ∧
    (accountReconcile ext env acc).pushes =
      (if isSystemAccount acc op then [] else [t]) := by
  obtain ⟨hdel, hfin, hst, hseed, hsd, hdec, hrepair, hknows, hcobj, hfetch, hopkind, hcap,
    hrdy, hsel, hlist, hdes, hokp, hisf, hisd, hipref, hidec, hipk, hclaims, hjf, hjt,
    hdecc, heqc, hps, hopts, hconn, hpush⟩ := h
  have h0 : initAccountConds acc.status = acc.status := by
    rw [hst]
    rfl
  have haccP : ({ acc with status := initAccountConds acc.status, deletionSet := false, hasFinalizer := true } : AccountObj) = acc := by
    rw [h0, ← hdel, ← hfin]
  have hcore : accountReconcileCore ext env acc = accountPipeline ext env acc false := by
    unfold accountReconcileCore
    rw [hdel, hfin]
    simp only [Bool.false_eq_true, if_false, Bool.not_true, Bool.false_and, haccP]
  have hmark1 : markSeedSecretReadyA kp.publicKey s.name acc.status = acc.status := by
    rw [hst]
    rfl
  have hens : ensureSeedSecretUpToDateAcc ext env.seedUpdateOk acc.status s =
      ⟨true, none, acc.status, []⟩ := by
    unfold ensureSeedSecretUpToDateAcc
    simp only [hsd, hdec, hrepair]
    simp [hmark1]
  have hseedR : reconcileSeedSecretAcc ext env.seedFetch env.seedCreateOk env.seedUpdateOk
      acc.status acc = ⟨true, none, acc.status, [], 0⟩ := by
    rw [hseed]
    unfold reconcileSeedSecretAcc
    simp only [hens]
  have hri : resolveIssuer env.resolveEnv acc.spec.issuer acc.ns = ⟨some op, true, none⟩ := by
    unfold resolveIssuer
    simp [hknows, hcobj, hfetch, hcap, hrdy]
  have hro : resolveOperator env.ownerEnv acc.status op = ⟨some op, true, none, acc.status⟩ := by
    have hmark : markOperatorResolvedA ⟨op.ns, op.name⟩ acc.status = acc.status := by
      rw [hst]
      rfl
    unfold resolveOperator
    rw [hopkind]
    simp [hmark]
  have hsknext : nextSigningKeys sks sks = sks :=
    (nextSigningKeys_eq_self_iff sks sks).mpr (fun _ => Iff.rfl)
  have hsk : ensureSigningKeysUpdated env.skEnv acc = ⟨none, acc.status, false⟩ := by
    have hmark : markSigningKeysUpdatedA sks acc.status = acc.status := by
      rw [hst]
      rfl
    unfold ensureSigningKeysUpdated
    rw [hsel, hlist]
    have hcur : acc.status.signingKeys = sks := by
      rw [hst]
      rfl
    simp only [hcur, hdes, hsknext, hmark]
    simp
  have hli : loadIssuerSeedAcc ext env.issuerSeedFetch acc.status op =
      ⟨some ikp, true, none, acc.status⟩ := by
    have hmark : markIssuerResolvedA acc.status = acc.status := by
      rw [hst]
      rfl
    unfold loadIssuerSeedAcc
    rw [hokp, hisf]
    simp only [hisd, hipref, hidec]
    simp [hipk, hmark]
  have hup : jwtUpToDate ext want t = true := by
    unfold jwtUpToDate
    rw [hdecc]
    exact heqc
  have hens2 : ensureJWTSecretUpToDateAcc ext env.jwtUpdateOk acc.status want js next =
      ⟨t, true, none, acc.status, []⟩ := by
    have hmark : markJWTSecretReadyA acc.status = acc.status := by
      rw [hst]
      rfl
    unfold ensureJWTSecretUpToDateAcc
    simp only [hjt]
    simp [hup, hmark]
  have heta : ({ acc with status := acc.status } : AccountObj) = acc := rfl
  have hjr : reconcileJWTSecretAcc ext env.jwtFetch env.jwtCreateOk env.jwtUpdateOk
      acc.status acc ikp = ⟨t, true, none, acc.status, []⟩ := by
    unfold reconcileJWTSecretAcc
    rw [heta, hclaims, hjf]
    simp only [hens2]
  have hpub : publicationStep env.pushEnv acc.status acc op t =
      ⟨none, acc.status, (if isSystemAccount acc op then [] else [t]),
        (if isSystemAccount acc op then 0 else 1)⟩ := by
    have hmark : markJWTPushedA acc.status = acc.status := by
      rw [hst]
      rfl
    unfold publicationStep ensureJWTPushed
    cases hsys : isSystemAccount acc op with
    | true => simp [hmark]
    | false =>
      rw [hps, hopts]
      simp [hconn, hpush, hmark]
  have hpipe : accountPipeline ext env acc false =
      ⟨none, acc.status, [], (if isSystemAccount acc op then [] else [t]), [],
        (if isSystemAccount acc op then 0 else 1), 0, false, false⟩ := by
    unfold accountPipeline
    simp [hseedR, hri, hro, heta, hsk, hli, hjr, hpub]
  have hfinal : accountReconcile ext env acc =
      ⟨none, acc.status, [], (if isSystemAccount acc op then [] else [t]), [],
        (if isSystemAccount acc op then 0 else 1), 0, false, true⟩ := by
    unfold accountReconcile
    rw [hcore, hpipe]
    simp [semanticDeepEqualPtrVal]
  rw [hfinal]
  exact ⟨rfl, rfl, rfl, rfl, rfl, rfl⟩

/-- The fully converged User status: every condition True, the recorded key pair and account reference matching the observed state. -/
def convergedUserStatus (kp : NKey) (seedName : String) (aRef : ObjRef) : UserStatus :=
  { seedSecretCond := markTrue, issuerResolvedCond := markTrue
    accountResolvedCond := markTrue, jwtSecretCond := markTrue, credsSecretCond := markTrue
    keyPair := some ⟨kp.publicKey, seedName⟩, accountRef := some aRef }

/-- A User whose observed state already matches its desired state: seed secret equal to its desired representation, stored JWT claims canonically equal, credentials secret equal, all conditions already True. -/
def UserConverged (ext : Ext) (env : UserEnv) (usr : UserObj) (s : Secret) (sd : String)
    (kp : NKey) (ak : KObj) (arec : KeyPairRec) (isec : Secret) (isd : String) (ikp : NKey)
    (want : Claims) (next : String) (js : Secret) (t : String) (c : Claims) (cs : Secret)
    (fc : String) : Prop :=
  usr.status = convergedUserStatus kp usr.spec.seedSecretName ⟨ak.ns, ak.name⟩ ∧
  env.seedFetch = FetchRes.ok s ∧
  getKey s.data natsSecretSeedKey = some sd ∧
  ext.decodeSeed sd = some kp ∧
  buildKeyPairSecretFrom true s kp = s ∧
  env.resolveEnv.schemeKnows usr.spec.issuer.kind = true ∧
  env.resolveEnv.isClientObj usr.spec.issuer.kind = true ∧
  env.resolveEnv.fetch (lookupNs usr.spec.issuer.ns usr.ns) usr.spec.issuer.name =
    FetchRes.ok ak ∧
  ak.kind = "Account" ∧
  ak.keyPairCapable = true ∧
  ak.seedSecretReadyCond = true ∧
  ak.keyPair = some arec ∧
  env.issuerSeedFetch = FetchRes.ok isec ∧
  getKey isec.data natsSecretSeedKey = some isd ∧
  ext.seedPref isd = some PrefByte.account ∧
  ext.decodeSeed isd = some ikp ∧
  ikp.publicKey = arec.publicKey ∧
  ext.createUserClaims usr ikp = some (want, next) ∧
  env.jwtFetch = FetchRes.ok js ∧
  getKey js.data natsSecretJWTKey = some t ∧
  ext.decodeClaims t = some c ∧
  nscDeepEqual c want = true ∧
  env.credsFetch = FetchRes.ok cs ∧
  ext.formatUserConfig t kp.seed = some fc ∧
  buildCredsSecretFrom cs fc = cs

theorem userConverged_frame (ext : Ext) (env : UserEnv) (usr : UserObj) (s : Secret)
    (sd : String) (kp : NKey) (ak : KObj) (arec : KeyPairRec) (isec : Secret) (isd : String)
    (ikp : NKey) (want : Claims) (next : String) (js : Secret) (t : String) (c : Claims)
    (cs : Secret) (fc : String)
    (h : UserConverged ext env usr s sd kp ak arec isec isd ikp want next js t c cs fc) :
    (userReconcile ext env usr).secretWrites = [] ∧
    (userReconcile ext env usr).st = usr.status ∧
    (userReconcile ext env usr).statusWritten = true ∧
    (userReconcile ext env usr).err = none ∧
    (userReconcile ext env usr).keygens = 0 := by
  obtain ⟨hst, hseed, hsd, hdec, hrepair, hknows, hcobj, hfetch, hakind, hcap, hrdy, hakkp,
    hisf, hisd, hipref, hidec, hipk, hclaims, hjf, hjt, hdecc, heqc, hcs, hfc, hcrepair⟩ := h
  have h0 : initUserConds usr.status = usr.status := by
    rw [hst]
    rfl
  have hbase : ensureSeedSecretUpToDateBase ext true env.seedUpdateOk s =
      ⟨some kp, true, none, []⟩ := by
    unfold ensureSeedSecretUpToDateBase
    simp only [hsd, hdec, hrepair]
    simp
  have hmarkSR : markSeedSecretReadyU kp.publicKey usr.spec.seedSecretName usr.status =
      usr.status := by
    rw [hst]
    rfl
  have hseedStage : reconcileSeedSecretUser ext env.seedFetch env.seedCreateOk
      env.seedUpdateOk usr.status usr = ⟨some kp.seed, true, none, usr.status, [], 0⟩ := by
    rw [hseed]
    unfold reconcileSeedSecretUser
    simp [hbase, hmarkSR]
  have hri : resolveIssuer env.resolveEnv usr.spec.issuer usr.ns = ⟨some ak, true, none⟩ := by
    unfold resolveIssuer
    simp [hknows, hcobj, hfetch, hcap, hrdy]
  have hra : resolveAccount env.ownerEnv usr.status ak = ⟨some ak, true, none, usr.status⟩ := by
    have hmark : markAccountResolvedU ⟨ak.ns, ak.name⟩ usr.status = usr.status := by
      rw [hst]
      rfl
    unfold resolveAccount
    rw [hakind]
    simp [hmark]
  have hliB : loadIssuerSeedBase ext env.issuerSeedFetch ak PrefByte.account =
      ⟨some ikp, true, none⟩ := by
    unfold loadIssuerSeedBase
    rw [hakkp, hisf]
    simp only [hisd, hipref, hidec]
    simp [hipk]
  have hmarkIR : markIssuerResolvedU usr.status = usr.status := by
    rw [hst]
    rfl
  have hetaU : ({ usr with status := usr.status } : UserObj) = usr := rfl
  have hup : jwtUpToDate ext want t = true := by
    unfold jwtUpToDate
    rw [hdecc]
    exact heqc
  have hensU : ensureJWTSecretUpToDateUser ext env.jwtUpdateOk usr.status want js next =
      ⟨t, true, none, usr.status, []⟩ := by
    have hmark : markJWTSecretReadyU usr.status = usr.status := by
      rw [hst]
      rfl
    unfold ensureJWTSecretUpToDateUser
    simp only [hjt]
    simp [hup, hmark]
  have hjr : reconcileJWTSecretUser ext env.issuerSeedFetch env.jwtFetch env.jwtCreateOk
      env.jwtUpdateOk usr.status usr ak = ⟨t, true, none, usr.status, []⟩ := by
    unfold reconcileJWTSecretUser
    simp only [hliB]
    simp only [hmarkIR, hetaU, hclaims, hjf]
    simp [hensU]
  have hcreds : reconcileUserCredentialSecret ext env.credsFetch env.credsCreateOk
      env.credsUpdateOk usr.status usr t kp.seed = ⟨none, usr.status, []⟩ := by
    have hmark : markCredsSecretReadyU usr.status = usr.status := by
      rw [hst]
      rfl
    unfold reconcileUserCredentialSecret ensureCredentialsSecretUpToDate
    rw [hcs]
    simp only [hfc, hcrepair]
    simp [hmark]
  have hfinal : userReconcile ext env usr = ⟨none, usr.status, [], 0, true⟩ := by
    unfold userReconcile userReconcileCore
    simp only [h0, hseedStage]
    simp only [hri]
    simp [hra, hjr, hcreds, semanticDeepEqualPtrVal]
  rw [hfinal]
  exact ⟨rfl, rfl, rfl, rfl, rfl⟩

/-- C2 amended: a reconciliation pass over an already-converged resource performs zero secret writes and no keypair generation, with no error, and the post-pass status content equals the pre-pass snapshot; nevertheless the status sub-resource is written on every pass, because the deferred comparison pits the pointer-typed DeepCopy snapshot against the value-typed status and is therefore always false, and a converged Account's JWT is still pushed to the remote authority on every pass unless it is the system account, while nothing is deleted remotely and the User pipeline makes no remote-authority call at all. -/
theorem reconcileConverged_idempotent_spec (extA : Ext) (envA : AccEnv) (acc : AccountObj)
    (s : Secret) (sd : String) (kp : NKey) (op : KObj) (sks : List SKEntry)
    (l : List SigningKeyObj) (irec : KeyPairRec) (isec : Secret) (isd : String) (ikp : NKey)
    (want : Claims) (next : String) (js : Secret) (t : String) (c : Claims) (ss : String)
    (opts : Option String) (extU : Ext) (envU : UserEnv) (usr : UserObj) (us : Secret)
    (usd : String) (ukp : NKey) (ak : KObj) (arec : KeyPairRec) (uisec : Secret)
    (uisd : String) (uikp : NKey) (uwant : Claims) (unext : String) (ujs : Secret)
    (ut : String) (uc : Claims) (cs : Secret) (fc : String) :
    (AccountConverged extA envA acc s sd kp op sks l irec isec isd ikp want next js t c
        ss opts →
      (accountReconcile extA envA acc).secretWrites = [] ∧
      (accountReconcile extA envA acc).st = acc.status ∧
      (accountReconcile extA envA acc).statusWritten = true ∧
      (accountReconcile extA envA acc).err = none ∧
      (accountReconcile extA envA acc).deletes = [] ∧
      (accountReconcile extA envA acc).pushes =
        (if isSystemAccount acc op then [] else [t])) ∧
    (UserConverged extU envU usr us usd ukp ak arec uisec uisd uikp uwant unext ujs ut uc
        cs fc →
      (userReconcile extU envU usr).secretWrites = [] ∧
      (userReconcile extU envU usr).st = usr.status ∧
      (userReconcile extU envU usr).statusWritten = true ∧
      (userReconcile extU envU usr).err = none ∧
      (userReconcile extU envU usr).keygens = 0) := by
  constructor
  · intro h
    exact accountConverged_frame extA envA acc s sd kp op sks l irec isec isd ikp want next
      js t c ss opts h
  · intro h
    exact userConverged_frame extU envU usr us usd ukp ak arec uisec uisd uikp uwant unext
      ujs ut uc cs fc h

def coreC2 : ClaimsCore := ⟨"subj", "iss", [], "fields"⟩

def extC2 : Ext :=
  { decodeClaims := fun tok => if tok = "tokOld" then some ⟨coreC2, 0⟩ else none
    decodeSeed := fun x =>
      if x = "aseed" then some ⟨"aseed", "APK"⟩
      else if x = "opseed" then some ⟨"opseed", "OPK"⟩
      else none
    seedPref := fun x => if x = "opseed" then some PrefByte.operator else none
    freshAccountKey := none
    freshUserKey := none
    createAccountClaims := fun _ _ => some (⟨coreC2, 1⟩, "tokNew")
    createUserClaims := fun _ _ => none
    formatUserConfig := fun _ _ => none }

def kpC2 : NKey := ⟨"aseed", "APK"⟩

def sC2 : Secret := ⟨"acc-seed", "ns", true, [(natsSecretSeedKey, "aseed")]⟩

def opC2 : KObj :=
  { kind := "Operator", ns := "opns", name := "op", keyPairCapable := true
    keyPair := some ⟨"OPK", "op-seed"⟩, seedSecretReadyCond := true
    ownerResolvedCond := false, ownerRef := ⟨"", "", ""⟩
    sysResolvedCond := true, resolvedSysAccount := ⟨"ns", "sysacc"⟩
    accountServerURL := "nats://x", tls := TLSCfg.noTLS }

def isecC2 : Secret := ⟨"op-seed", "opns", true, [(natsSecretSeedKey, "opseed")]⟩

def jsC2 : Secret := ⟨"acc-jwt", "ns", false, [(natsSecretJWTKey, "tokOld")]⟩

def accC2 : AccountObj :=
  { ns := "ns", name := "tenant", uid := "u2"
    spec := { seedSecretName := "acc-seed", jwtSecretName := "acc-jwt"
              issuer := ⟨"Operator", "opns", "op"⟩, hasSigningKeysSelector := false }
    status := convergedAccountStatus kpC2 "acc-seed" ⟨"opns", "op"⟩ []
    deletionSet := false, hasFinalizer := true }

def envC2 : AccEnv :=
  { resolveEnv := ⟨fun _ => true, fun _ => true,
      fun nsx nm => if nsx = "opns" ∧ nm = "op" then .ok opC2 else .notFound⟩
    ownerEnv := ⟨fun _ => true, fun _ => true, fun _ _ => .notFound⟩
    skEnv := ⟨true, .ok []⟩
    seedFetch := .ok sC2, seedCreateOk := true, seedUpdateOk := true
    jwtFetch := .ok jsC2, jwtCreateOk := true, jwtUpdateOk := true
    issuerSeedFetch := .ok isecC2
    pushEnv := ⟨.ok "sys", .notFound, true, true⟩
    finEnv := envC4good
    finalizerUpdateOk := true }

/-- Counterexample to C2: a fully converged non-system Account (seed secret equal to desired, signing keys unchanged, stored JWT claims equal excluding the timestamp, all conditions True) on which one reconciliation pass writes no secret and leaves the status content unchanged, yet still makes a remote-authority call by pushing the stored JWT and still writes the status sub-resource, since the deferred pointer-versus-value DeepEqual is always false. -/
theorem accountReconcile_converged_push_counterexample :
    AccountConverged extC2 envC2 accC2 sC2 "aseed" kpC2 opC2 [] [] ⟨"OPK", "op-seed"⟩
      isecC2 "opseed" ⟨"opseed", "OPK"⟩ ⟨coreC2, 1⟩ "tokNew" jsC2 "tokOld" ⟨coreC2, 0⟩
      "sys" none ∧
    (accountReconcile extC2 envC2 accC2).secretWrites = [] ∧
    (accountReconcile extC2 envC2 accC2).st = accC2.status ∧
    (accountReconcile extC2 envC2 accC2).statusWritten = true ∧
    (accountReconcile extC2 envC2 accC2).pushes = ["tokOld"] := by
  refine ⟨⟨rfl, rfl, rfl, rfl, rfl, rfl, rfl, rfl, rfl, rfl, rfl, rfl, rfl,
    rfl, rfl, rfl, rfl, rfl, rfl, rfl, rfl, rfl, rfl, rfl, rfl, rfl, rfl, rfl, rfl,
    rfl, rfl⟩, by decide, by decide, by decide, by decide⟩

def ucoreC2 : ClaimsCore := ⟨"usubj", "uiss", [], "ufields"⟩

def extU2 : Ext :=
  { decodeClaims := fun tok => if tok = "uold" then some ⟨ucoreC2, 0⟩ else none
    decodeSeed := fun x =>
      if x = "useed" then some ⟨"useed", "UPK"⟩
      else if x = "akseed" then some ⟨"akseed", "AKPK"⟩
      else none
    seedPref := fun x => if x = "akseed" then some PrefByte.account else none
    freshAccountKey := none
    freshUserKey := none
    createAccountClaims := fun _ _ => none
    createUserClaims := fun _ _ => some (⟨ucoreC2, 3⟩, "unew")
    formatUserConfig := fun tok x =>
      if tok = "uold" ∧ x = "useed" then some "CREDS" else none }

def ukpC2 : NKey := ⟨"useed", "UPK"⟩

def usC2 : Secret :=
  ⟨"alice-seed", "ns", true,
    [(natsSecretSeedKey, "useed"), (natsSecretPublicKeyKey, "UPK")]⟩

def akC2 : KObj :=
  { kind := "Account", ns := "ns", name := "acct", keyPairCapable := true
    keyPair := some ⟨"AKPK", "acct-seed"⟩, seedSecretReadyCond := true
    ownerResolvedCond := false, ownerRef := ⟨"", "", ""⟩
    sysResolvedCond := false, resolvedSysAccount := ⟨"", ""⟩
    accountServerURL := "", tls := TLSCfg.noTLS }

def uisecC2 : Secret := ⟨"acct-seed", "ns", true, [(natsSecretSeedKey, "akseed")]⟩

def ujsC2 : Secret := ⟨"alice-jwt", "ns", true, [(natsSecretJWTKey, "uold")]⟩

def ucsC2 : Secret := ⟨"alice-creds", "ns", false, [(natsSecretCredsKey, "CREDS")]⟩

def usrU2 : UserObj :=
  { ns := "ns", name := "alice"
    spec := { seedSecretName := "alice-seed", jwtSecretName := "alice-jwt"
              credentialsSecretName := "alice-creds", issuer := ⟨"Account", "", "acct"⟩ }
    status := convergedUserStatus ukpC2 "alice-seed" ⟨"ns", "acct"⟩ }

def envU2 : UserEnv :=
  { resolveEnv := ⟨fun _ => true, fun _ => true,
      fun nsx nm => if nsx = "ns" ∧ nm = "acct" then .ok akC2 else .notFound⟩
    ownerEnv := ⟨fun _ => true, fun _ => true, fun _ _ => .notFound⟩
    seedFetch := .ok usC2, seedCreateOk := true, seedUpdateOk := true
    issuerSeedFetch := .ok uisecC2
    jwtFetch := .ok ujsC2, jwtCreateOk := true, jwtUpdateOk := true
    credsFetch := .ok ucsC2, credsCreateOk := true, credsUpdateOk := true }

/-- Witness for the amended C2 at concrete converged Account and User resources: the pass performs no secret writes for either, leaves both status contents unchanged, yet writes both status sub-resources, and the only other remote effect is the Account JWT push. -/
theorem reconcileConverged_idempotent_spec_witness :
    (accountReconcile extC2 envC2 accC2).secretWrites = [] ∧
    (accountReconcile extC2 envC2 accC2).st = accC2.status ∧
    (accountReconcile extC2 envC2 accC2).statusWritten = true ∧
    (userReconcile extU2 envU2 usrU2).secretWrites = [] ∧
    (userReconcile extU2 envU2 usrU2).st = usrU2.status ∧
    (userReconcile extU2 envU2 usrU2).statusWritten = true := by
  have h := reconcileConverged_idempotent_spec extC2 envC2 accC2 sC2 "aseed" kpC2 opC2 []
    [] ⟨"OPK", "op-seed"⟩ isecC2 "opseed" ⟨"opseed", "OPK"⟩ ⟨coreC2, 1⟩ "tokNew" jsC2
    "tokOld" ⟨coreC2, 0⟩ "sys" none extU2 envU2 usrU2 usC2 "useed" ukpC2 akC2
    ⟨"AKPK", "acct-seed"⟩ uisecC2 "akseed" ⟨"akseed", "AKPK"⟩ ⟨ucoreC2, 3⟩ "unew" ujsC2
    "uold" ⟨ucoreC2, 0⟩ ucsC2 "CREDS"
  have ha := h.1 ⟨rfl, rfl, rfl, rfl, rfl, rfl, rfl, rfl, rfl, rfl, rfl, rfl,
    rfl, rfl, rfl, rfl, rfl, rfl, rfl, rfl, rfl, rfl, rfl, rfl, rfl, rfl, rfl, rfl,
    rfl, rfl, rfl⟩
  have hu := h.2 ⟨rfl, rfl, rfl, rfl, rfl, rfl, rfl, rfl, rfl, rfl, rfl, rfl,
    rfl, rfl, rfl, rfl, rfl, rfl, rfl, rfl, rfl, rfl, rfl, rfl, rfl⟩
  exact ⟨ha.1, ha.2.1, ha.2.2.1, hu.1, hu.2.1, hu.2.2.1⟩

end NatsAccOp
